import Mathlib

/-!
# Server actions of `src/lib/actions.js`

A shallow embedding of the eight server actions (`createBoxAction`,
`updateBoxAction`, `deleteBoxAction`, `createSubmissionAction`,
`updateSubmissionAction`, `generateLinkAction`, `toggleLinkStatusAction`,
`deleteLinkAction`).

Every action is an `async` function whose whole body is one `try`/`catch`.
The collaborators it awaits (`getServerSession`, the queries of
`@/prisma/queries`, the helpers of `@/utils/linkUtils`, `revalidatePath`) are
not part of the file: they are taken as a parameter `Env σ`, each one an
arbitrary function of an abstract store `σ` that either returns a value or
throws.  A run of an action yields its outcome (the value the promise resolves
to, or the value it rejects with), the final store, and the trace of the
collaborator calls and `console.error` calls made, in order.
-/

namespace Actions

/-! ## Values -/

/-- A value raised by a JavaScript `throw`.  `error m` is an `Error` instance
whose `message` is the string `m` (what `new Error(m)` builds); `null` and
`undefined` are the two values on which a property read itself throws; `str v`
is a thrown primitive string, which has no `message` property. -/
inductive Thrown where
  | error (message : String)
  | null
  | undefined
  | str (value : String)
  deriving DecidableEq, Repr

/-- The expression `error.message` of the catch blocks: the message of an
`Error`, `undefined` (here `none`) on a primitive string, and a `TypeError` on
`null` and `undefined`. -/
def Thrown.message : Thrown → Except Thrown (Option String)
  | .error m => .ok (some m)
  | .str _ => .ok none
  | .null => .error (.error "Cannot read properties of null (reading 'message')")
  | .undefined => .error (.error "Cannot read properties of undefined (reading 'message')")

/-- The `user` object of a session; `id` is `none` when the property is absent. -/
structure User where
  id : Option String
  deriving DecidableEq, Repr

/-- The session object; `user` is `none` when the property is absent. -/
structure Session where
  user : Option User
  deriving DecidableEq, Repr

/-- The value of `session?.user?.id` when it is truthy (a non-empty string), and
`none` when `!session?.user?.id` holds: the session is `null`, it has no user,
the user has no id, or the id is the empty string. -/
def sessionUserId (session : Option Session) : Option String :=
  match session with
  | none => none
  | some s =>
    match s.user with
    | none => none
    | some u =>
      match u.id with
      | none => none
      | some id => if id = "" then none else some id

/-- An entry of a `FormData`: a string or a `File`. -/
inductive FormValue where
  | text (value : String)
  | file (name : String)
  deriving DecidableEq, Repr

/-- The method `toString()` on a form entry, also what a template literal
interpolates. -/
def FormValue.toString : FormValue → String
  | .text s => s
  | .file _ => "[object File]"

/-- The form payload; `get` is `FormData.get`, `none` standing for `null`. -/
structure FormData where
  get : String → Option FormValue

/-- The value of `formData.get(k)` when it is truthy, `none` when `!value`
holds (the entry is missing or is the empty string). -/
def truthy (value : Option FormValue) : Option FormValue :=
  match value with
  | none => none
  | some (.text s) => if s = "" then none else some (.text s)
  | some (.file n) => some (.file n)

structure Box where
  id : String
  adminId : String
  name : String
  description : String
  deriving DecidableEq, Repr

structure Submission where
  id : String
  boxId : String
  message : String
  response : Option String
  deriving DecidableEq, Repr

structure Link where
  token : String
  boxId : String
  isActive : Bool
  deriving DecidableEq, Repr

/-- The object literal `{ name, description }` handed to `createBox` and `updateBox`. -/
structure BoxData where
  name : String
  description : String
  deriving DecidableEq, Repr

/-- The object literal `{ message }` handed to `createSubmission`. -/
structure SubmissionData where
  message : String
  deriving DecidableEq, Repr

/-- The object literal `{ response }` handed to `updateSubmission`. -/
structure ResponseData where
  response : String
  deriving DecidableEq, Repr

/-- The value an action resolves to: `{ success: true, data }` or
`{ success: false, error }`, where `error` is `none` when `error.message` was
`undefined`. -/
inductive Envelope (α : Type) where
  | success (data : α)
  | failure (error : Option String)
  deriving DecidableEq, Repr

/-! ## Collaborators and runs -/

/-- A call to one of the imported collaborators, with its arguments. -/
inductive Call where
  | getServerSession
  | createBox (adminId : String) (data : BoxData)
  | updateBox (boxId : String) (data : BoxData)
  | deleteBox (boxId : String)
  | getBoxById (boxId : FormValue)
  | createSubmission (boxId : String) (data : SubmissionData)
  | updateSubmission (submissionId : String) (data : ResponseData)
  | generateLink (boxId : FormValue)
  | getLinkByToken (token : String)
  | updateLinkStatus (token : String) (isActive : Bool)
  | deleteLink (token : String)
  | revalidatePath (path : String)
  deriving DecidableEq, Repr

/-- One step of a run: a collaborator call that returned, one that threw, or a
`console.error(label, error)`. -/
inductive Event where
  | returned (c : Call)
  | threw (c : Call) (e : Thrown)
  | logged (label : String) (e : Thrown)
  deriving DecidableEq, Repr

/-- The imported collaborators over a store `σ`.  Each takes its arguments and
the store and gives back what it returns or throws, and the store afterwards. -/
structure Env (σ : Type) where
  getServerSession : σ → Except Thrown (Option Session) × σ
  createBox : String → BoxData → σ → Except Thrown Box × σ
  updateBox : String → BoxData → σ → Except Thrown Box × σ
  deleteBox : String → σ → Except Thrown Box × σ
  getBoxById : FormValue → σ → Except Thrown (Option Box) × σ
  createSubmission : String → SubmissionData → σ → Except Thrown Submission × σ
  updateSubmission : String → ResponseData → σ → Except Thrown Submission × σ
  generateLink : FormValue → σ → Except Thrown Link × σ
  getLinkByToken : String → σ → Except Thrown (Option Link) × σ
  updateLinkStatus : String → Bool → σ → Except Thrown Link × σ
  deleteLink : String → σ → Except Thrown Link × σ
  revalidatePath : String → σ → Except Thrown Unit × σ

/-- What a computation did from a given store. -/
structure Run (σ α : Type) where
  outcome : Except Thrown α
  store : σ
  trace : List Event

/-- A computation over the store that may throw and records its events. -/
def Act (σ α : Type) : Type := σ → Run σ α

def Act.pure {σ α : Type} (a : α) : Act σ α :=
  fun s => ⟨.ok a, s, []⟩

def Act.bind {σ α β : Type} (x : Act σ α) (f : α → Act σ β) : Act σ β :=
  fun s =>
    match x s with
    | ⟨.ok a, s1, t1⟩ => let r := f a s1; ⟨r.outcome, r.store, t1 ++ r.trace⟩
    | ⟨.error e, s1, t1⟩ => ⟨.error e, s1, t1⟩

def Act.throw {σ α : Type} (e : Thrown) : Act σ α :=
  fun s => ⟨.error e, s, []⟩

def Act.tryCatch {σ α : Type} (body : Act σ α) (handler : Thrown → Act σ α) : Act σ α :=
  fun s =>
    match body s with
    | ⟨.ok a, s1, t1⟩ => ⟨.ok a, s1, t1⟩
    | ⟨.error e, s1, t1⟩ => let r := handler e s1; ⟨r.outcome, r.store, t1 ++ r.trace⟩

instance {σ : Type} : Monad (Act σ) where
  pure := Act.pure
  bind := Act.bind

instance {σ : Type} : MonadExcept Thrown (Act σ) where
  throw := Act.throw
  tryCatch := Act.tryCatch

/-- Awaiting the collaborator call `c`, implemented by `f`. -/
def call {σ α : Type} (c : Call) (f : σ → Except Thrown α × σ) : Act σ α :=
  fun s =>
    match f s with
    | (.ok a, s1) => ⟨.ok a, s1, [.returned c]⟩
    | (.error e, s1) => ⟨.error e, s1, [.threw c e]⟩

/-- The statement `console.error(label, error)`. -/
def consoleError {σ : Type} (label : String) (error : Thrown) : Act σ Unit :=
  fun s => ⟨.ok (), s, [.logged label error]⟩

/-- Evaluating `error.message`. -/
def readMessage {σ : Type} (error : Thrown) : Act σ (Option String) :=
  fun s => ⟨error.message, s, []⟩

/-- The common catch block:
`console.error(label, error); return { success: false, error: error.message }`. -/
def catchBlock {σ α : Type} (label : String) (error : Thrown) : Act σ (Envelope α) := do
  consoleError label error
  let message ← readMessage error
  pure (Envelope.failure message)

/-! ## The actions -/

def createBoxAction {σ : Type} (env : Env σ) (formData : FormData) : Act σ (Envelope Box) := do
  try
    let session ← call .getServerSession env.getServerSession
    let some userId := sessionUserId session
      | throw (Thrown.error "Unauthorized: Must be logged in to create a box")
    let name := formData.get "name"
    let description := formData.get "description"
    let (some name, some description) := (truthy name, truthy description)
      | throw (Thrown.error "Name and description are required")
    let boxData : BoxData := ⟨name.toString, description.toString⟩
    let newBox ← call (.createBox userId boxData) (env.createBox userId boxData)
    call (.revalidatePath "/dashboard") (env.revalidatePath "/dashboard")
    pure (Envelope.success newBox)
  catch error =>
    catchBlock "Create box action error:" error

def updateBoxAction {σ : Type} (env : Env σ) (boxId : String) (formData : FormData) :
    Act σ (Envelope Box) := do
  try
    let session ← call .getServerSession env.getServerSession
    let some _ := sessionUserId session
      | throw (Thrown.error "Unauthorized: Must be logged in to update a box")
    let name := formData.get "name"
    let description := formData.get "description"
    let (some name, some description) := (truthy name, truthy description)
      | throw (Thrown.error "Name and description are required")
    let boxData : BoxData := ⟨name.toString, description.toString⟩
    let updatedBox ← call (.updateBox boxId boxData) (env.updateBox boxId boxData)
    call (.revalidatePath "/dashboard") (env.revalidatePath "/dashboard")
    call (.revalidatePath ("/box/" ++ boxId)) (env.revalidatePath ("/box/" ++ boxId))
    pure (Envelope.success updatedBox)
  catch error =>
    catchBlock "Update box action error:" error

def deleteBoxAction {σ : Type} (env : Env σ) (boxId : String) : Act σ (Envelope Box) := do
  try
    let session ← call .getServerSession env.getServerSession
    let some _ := sessionUserId session
      | throw (Thrown.error "Unauthorized: Must be logged in to delete a box")
    let deletedBox ← call (.deleteBox boxId) (env.deleteBox boxId)
    call (.revalidatePath "/dashboard") (env.revalidatePath "/dashboard")
    pure (Envelope.success deletedBox)
  catch error =>
    catchBlock "Delete box action error:" error

def createSubmissionAction {σ : Type} (env : Env σ) (boxId : String) (formData : FormData) :
    Act σ (Envelope Submission) := do
  try
    let message := formData.get "message"
    let some message := truthy message
      | throw (Thrown.error "Message and box ID are required")
    if boxId = "" then
      throw (Thrown.error "Message and box ID are required")
    let submissionData : SubmissionData := ⟨message.toString⟩
    let newSubmission ← call (.createSubmission boxId submissionData)
      (env.createSubmission boxId submissionData)
    call (.revalidatePath ("/box/" ++ boxId)) (env.revalidatePath ("/box/" ++ boxId))
    pure (Envelope.success newSubmission)
  catch error =>
    catchBlock "Create submission action error:" error

def updateSubmissionAction {σ : Type} (env : Env σ) (submissionId : String) (formData : FormData) :
    Act σ (Envelope Submission) := do
  try
    let session ← call .getServerSession env.getServerSession
    let some _ := sessionUserId session
      | throw (Thrown.error "Unauthorized: Must be logged in to respond to submissions")
    let response := formData.get "response"
    let some response := truthy response
      | throw (Thrown.error "Response is required")
    let submissionData : ResponseData := ⟨response.toString⟩
    let updatedSubmission ← call (.updateSubmission submissionId submissionData)
      (env.updateSubmission submissionId submissionData)
    call (.revalidatePath "/dashboard") (env.revalidatePath "/dashboard")
    pure (Envelope.success updatedSubmission)
  catch error =>
    catchBlock "Update submission action error:" error

/-- The ownership test `!box || box.adminId !== session.user.id`. -/
def notOwner (box : Option Box) (userId : String) : Bool :=
  match box with
  | none => true
  | some b => b.adminId != userId

def generateLinkAction {σ : Type} (env : Env σ) (formData : FormData) : Act σ (Envelope Link) := do
  try
    let session ← call .getServerSession env.getServerSession
    let some userId := sessionUserId session
      | throw (Thrown.error "Unauthorized: Must be logged in to generate links")
    let boxId := formData.get "boxId"
    let some boxId := truthy boxId
      | throw (Thrown.error "Box ID is required")
    let box ← call (.getBoxById boxId) (env.getBoxById boxId)
    if notOwner box userId then
      throw (Thrown.error "Unauthorized: Box not found or you do not have permission")
    let link ← call (.generateLink boxId) (env.generateLink boxId)
    call (.revalidatePath ("/dashboard/box/" ++ boxId.toString))
      (env.revalidatePath ("/dashboard/box/" ++ boxId.toString))
    pure (Envelope.success link)
  catch error =>
    catchBlock "Generate link action error:" error

def toggleLinkStatusAction {σ : Type} (env : Env σ) (token : String) : Act σ (Envelope Link) := do
  try
    let session ← call .getServerSession env.getServerSession
    let some userId := sessionUserId session
      | throw (Thrown.error "Unauthorized: Must be logged in to manage links")
    let link ← call (.getLinkByToken token) (env.getLinkByToken token)
    let some link := link
      | throw (Thrown.error "Link not found")
    let box ← call (.getBoxById (.text link.boxId)) (env.getBoxById (.text link.boxId))
    if notOwner box userId then
      throw (Thrown.error "Unauthorized: You do not have permission to manage this link")
    let updatedLink ← call (.updateLinkStatus token (!link.isActive))
      (env.updateLinkStatus token (!link.isActive))
    call (.revalidatePath ("/dashboard/box/" ++ link.boxId))
      (env.revalidatePath ("/dashboard/box/" ++ link.boxId))
    pure (Envelope.success updatedLink)
  catch error =>
    catchBlock "Toggle link status action error:" error

def deleteLinkAction {σ : Type} (env : Env σ) (token : String) : Act σ (Envelope Link) := do
  try
    let session ← call .getServerSession env.getServerSession
    let some userId := sessionUserId session
      | throw (Thrown.error "Unauthorized: Must be logged in to delete links")
    let link ← call (.getLinkByToken token) (env.getLinkByToken token)
    let some link := link
      | throw (Thrown.error "Link not found")
    let box ← call (.getBoxById (.text link.boxId)) (env.getBoxById (.text link.boxId))
    if notOwner box userId then
      throw (Thrown.error "Unauthorized: You do not have permission to delete this link")
    let deletedLink ← call (.deleteLink token) (env.deleteLink token)
    call (.revalidatePath ("/dashboard/box/" ++ link.boxId))
      (env.revalidatePath ("/dashboard/box/" ++ link.boxId))
    pure (Envelope.success deletedLink)
  catch error =>
    catchBlock "Delete link action error:" error

/-! ## Observations on traces -/

/-- The collaborator calls of a trace, in order, whether they returned or threw. -/
def calls : List Event → List Call
  | [] => []
  | .returned c :: t => c :: calls t
  | .threw c _ :: t => c :: calls t
  | .logged _ _ :: t => calls t

/-- The paths handed to `revalidatePath`, in order. -/
def invalidated : List Event → List String
  | [] => []
  | .returned (.revalidatePath p) :: t => p :: invalidated t
  | .threw (.revalidatePath p) _ :: t => p :: invalidated t
  | _ :: t => invalidated t

/-- The calls that write to the store: every collaborator except the session
provider, the two lookups and `revalidatePath`. -/
def Call.mutating : Call → Bool
  | .createBox _ _ => true
  | .updateBox _ _ => true
  | .deleteBox _ => true
  | .createSubmission _ _ => true
  | .updateSubmission _ _ => true
  | .generateLink _ => true
  | .updateLinkStatus _ _ => true
  | .deleteLink _ => true
  | _ => false

/-- The writing calls of a trace that returned, in order. -/
def mutations : List Event → List Call
  | [] => []
  | .returned c :: t => if c.mutating then c :: mutations t else mutations t
  | _ :: t => mutations t

/-- Whether every `revalidatePath` call of a trace comes after a writing call
that returned; `seen` tells whether one has returned already. -/
def invalidatesAfterMutation (seen : Bool) : List Event → Bool
  | [] => true
  | .returned (.revalidatePath _) :: t => seen && invalidatesAfterMutation seen t
  | .threw (.revalidatePath _) _ :: t => seen && invalidatesAfterMutation seen t
  | .returned c :: t => invalidatesAfterMutation (seen || c.mutating) t
  | _ :: t => invalidatesAfterMutation seen t

/-- A run settles when it resolves to an envelope whose error is the message of
the `Error` that was thrown: if a collaborator threw an `Error` with message
`m` the result is `{ success: false, error: m }`, and if every value thrown by
a collaborator was an `Error` the run resolves, to `{ success: true, data }` or
to `{ success: false, error: m }` with `m` a string. -/
def Settles {σ α : Type} (r : Run σ (Envelope α)) : Prop :=
  (∀ c m, Event.threw c (.error m) ∈ r.trace → r.outcome = .ok (.failure (some m))) ∧
  ((∀ c e, Event.threw c e ∈ r.trace → ∃ m, e = Thrown.error m) →
    (∃ d, r.outcome = .ok (.success d)) ∨ ∃ m, r.outcome = .ok (.failure (some m)))

/-- No path is invalidated unless a writing call returned, and then only
afterwards. -/
def InvalidatesOnlyAfterMutation (t : List Event) : Prop :=
  (mutations t = [] → invalidated t = []) ∧ invalidatesAfterMutation false t = true

/-! ## An in-memory store

The collaborators are outside the source tree.  The store below follows their
description in the specification and serves as a concrete instance. -/

/-- Modelled from the spec: the state behind the persistence layer
(`@/prisma/queries`) and the link utility (`@/utils/linkUtils`), neither of
which is in the source tree: the stored boxes, submissions and links. -/
structure Store where
  boxes : List Box
  submissions : List Submission
  links : List Link
  deriving DecidableEq, Repr

def Store.findBox (s : Store) (id : String) : Option Box :=
  s.boxes.find? (fun b => b.id == id)

def Store.findSubmission (s : Store) (id : String) : Option Submission :=
  s.submissions.find? (fun x => x.id == id)

def Store.findLink (s : Store) (token : String) : Option Link :=
  s.links.find? (fun l => l.token == token)

/-- Modelled from the spec: the collaborators of section 6, which are not in
the source tree, over the in-memory `Store`.  `getServerSession` returns the
session `session` of the request; the queries create, update, delete and look up single records,
an update or delete of a missing record throwing an `Error`;
`updateLinkStatus(token, b)` sets the `isActive` of that link to `b` and
changes nothing else; `revalidatePath` returns without touching the store. -/
def memoryEnv (session : Option Session) : Env Store where
  getServerSession := fun s => (.ok session, s)
  createBox := fun adminId data s =>
    let box : Box := ⟨"box-" ++ toString s.boxes.length, adminId, data.name, data.description⟩
    (.ok box, { s with boxes := s.boxes ++ [box] })
  updateBox := fun boxId data s =>
    match s.findBox boxId with
    | none => (.error (.error "Record to update not found."), s)
    | some b =>
      let box : Box := { b with name := data.name, description := data.description }
      (.ok box, { s with boxes := s.boxes.map (fun x => if x.id == boxId then box else x) })
  deleteBox := fun boxId s =>
    match s.findBox boxId with
    | none => (.error (.error "Record to delete does not exist."), s)
    | some b => (.ok b, { s with boxes := s.boxes.filter (fun x => x.id != boxId) })
  getBoxById := fun boxId s =>
    match boxId with
    | .text id => (.ok (s.findBox id), s)
    | .file _ => (.ok none, s)
  createSubmission := fun boxId data s =>
    let sub : Submission :=
      ⟨"submission-" ++ toString s.submissions.length, boxId, data.message, none⟩
    (.ok sub, { s with submissions := s.submissions ++ [sub] })
  updateSubmission := fun submissionId data s =>
    match s.findSubmission submissionId with
    | none => (.error (.error "Record to update not found."), s)
    | some x =>
      let sub : Submission := { x with response := some data.response }
      (.ok sub,
        { s with submissions := s.submissions.map (fun y => if y.id == submissionId then sub else y) })
  generateLink := fun boxId s =>
    let link : Link := ⟨"token-" ++ toString s.links.length, boxId.toString, true⟩
    (.ok link, { s with links := s.links ++ [link] })
  getLinkByToken := fun token s => (.ok (s.findLink token), s)
  updateLinkStatus := fun token isActive s =>
    match s.findLink token with
    | none => (.error (.error "Record to update not found."), s)
    | some l =>
      let link : Link := { l with isActive := isActive }
      (.ok link, { s with links := s.links.map (fun x => if x.token == token then link else x) })
  deleteLink := fun token s =>
    match s.findLink token with
    | none => (.error (.error "Record to delete does not exist."), s)
    | some l => (.ok l, { s with links := s.links.filter (fun x => x.token != token) })
  revalidatePath := fun _ s => (.ok (), s)

/-- The in-memory collaborators with a persistence layer whose
`createSubmission` throws the value `e`. -/
def failingEnv (e : Thrown) : Env Store :=
  { memoryEnv none with createSubmission := fun _ _ s => (.error e, s) }

/-- The in-memory collaborators with a cache whose `revalidatePath` throws
`new Error("cache down")`. -/
def cacheDownEnv (session : Option Session) : Env Store :=
  { memoryEnv session with revalidatePath := fun _ s => (.error (.error "cache down"), s) }

/-- A box of user `alice` with one submission and one active link. -/
def aliceBox : Box := ⟨"b1", "alice", "Feedback", "Tell us"⟩

def aliceLink : Link := ⟨"t1", "b1", true⟩

def aliceSubmission : Submission := ⟨"s1", "b1", "hello", none⟩

/-- The store holding the records of `alice`. -/
def aliceStore : Store :=
  ⟨[aliceBox], [aliceSubmission], [aliceLink]⟩

/-- The session of the logged-in user `id`. -/
def sessionOf (id : String) : Option Session :=
  some ⟨some ⟨some id⟩⟩

/-- A form with the given text fields and nothing else. -/
def formOf (fields : List (String × String)) : FormData :=
  ⟨fun k => (fields.lookup k).map FormValue.text⟩

/-! ## Evaluation lemmas -/

theorem tryCatch_call_bind {σ α β : Type} (c : Call) (f : σ → Except Thrown α × σ)
    (k : α → Act σ β) (h : Thrown → Act σ β) (s : σ) :
    Act.tryCatch (Act.bind (call c f) k) h s =
      match f s with
      | (.ok a, s1) =>
        ⟨(Act.tryCatch (k a) h s1).outcome, (Act.tryCatch (k a) h s1).store,
          .returned c :: (Act.tryCatch (k a) h s1).trace⟩
      | (.error e, s1) => ⟨(h e s1).outcome, (h e s1).store, .threw c e :: (h e s1).trace⟩ := by
  unfold Act.tryCatch Act.bind call
  rcases f s with ⟨e | a, s1⟩
  · simp
  · rcases hk : k a s1 with ⟨e | b, s2, t2⟩ <;> simp [hk]

theorem tryCatch_throw {σ α : Type} (e : Thrown) (h : Thrown → Act σ α) (s : σ) :
    Act.tryCatch (Act.throw e) h s = h e s := by
  simp [Act.tryCatch, Act.throw]

theorem tryCatch_pure {σ α : Type} (a : α) (h : Thrown → Act σ α) (s : σ) :
    Act.tryCatch (Act.pure a) h s = ⟨.ok a, s, []⟩ := by
  simp [Act.tryCatch, Act.pure]

theorem catchBlock_run {σ α : Type} (label : String) (e : Thrown) (s : σ) :
    (catchBlock label e : Act σ (Envelope α)) s =
      ⟨(match e.message with
        | .ok m => .ok (.failure m)
        | .error e1 => .error e1), s, [.logged label e]⟩ := by
  simp only [catchBlock, bind, Act.bind, consoleError, readMessage, pure, Act.pure]
  rcases e.message with _ | _ <;> simp

theorem pure_bind_run {σ α β : Type} (a : α) (k : α → Act σ β) :
    Act.bind (Act.pure a) k = k a := by
  funext s
  simp [Act.bind, Act.pure]

theorem throw_bind_run {σ α β : Type} (e : Thrown) (k : α → Act σ β) :
    Act.bind (Act.throw e : Act σ α) k = Act.throw e := by
  funext s
  simp [Act.bind, Act.throw]

/-- C1: each of the seven actions that need a session, on every input, when
`getServerSession` returns a value for which `!session?.user?.id` holds (no
session, no user, no id, or an empty id), resolves to
`{ success: false, error: m }` with `m` beginning "Unauthorized", after a run
whose only events are the session lookup and the `console.error` of the catch
block: no persistence call, no link call and no `revalidatePath`. -/
theorem unauthenticated_is_rejected {σ : Type} (env : Env σ) (s s1 : σ) (session : Option Session)
    (hs : env.getServerSession s = (.ok session, s1)) (hu : sessionUserId session = none) :
    (∀ fd, ∃ rest, createBoxAction env fd s =
      ⟨.ok (.failure (some ("Unauthorized" ++ rest))), s1,
        [.returned .getServerSession,
          .logged "Create box action error:" (.error ("Unauthorized" ++ rest))]⟩) ∧
    (∀ boxId fd, ∃ rest, updateBoxAction env boxId fd s =
      ⟨.ok (.failure (some ("Unauthorized" ++ rest))), s1,
        [.returned .getServerSession,
          .logged "Update box action error:" (.error ("Unauthorized" ++ rest))]⟩) ∧
    (∀ boxId, ∃ rest, deleteBoxAction env boxId s =
      ⟨.ok (.failure (some ("Unauthorized" ++ rest))), s1,
        [.returned .getServerSession,
          .logged "Delete box action error:" (.error ("Unauthorized" ++ rest))]⟩) ∧
    (∀ submissionId fd, ∃ rest, updateSubmissionAction env submissionId fd s =
      ⟨.ok (.failure (some ("Unauthorized" ++ rest))), s1,
        [.returned .getServerSession,
          .logged "Update submission action error:" (.error ("Unauthorized" ++ rest))]⟩) ∧
    (∀ fd, ∃ rest, generateLinkAction env fd s =
      ⟨.ok (.failure (some ("Unauthorized" ++ rest))), s1,
        [.returned .getServerSession,
          .logged "Generate link action error:" (.error ("Unauthorized" ++ rest))]⟩) ∧
    (∀ token, ∃ rest, toggleLinkStatusAction env token s =
      ⟨.ok (.failure (some ("Unauthorized" ++ rest))), s1,
        [.returned .getServerSession,
          .logged "Toggle link status action error:" (.error ("Unauthorized" ++ rest))]⟩) ∧
    (∀ token, ∃ rest, deleteLinkAction env token s =
      ⟨.ok (.failure (some ("Unauthorized" ++ rest))), s1,
        [.returned .getServerSession,
          .logged "Delete link action error:" (.error ("Unauthorized" ++ rest))]⟩) := by
  refine ⟨fun _ => ⟨": Must be logged in to create a box", ?_⟩,
    fun _ _ => ⟨": Must be logged in to update a box", ?_⟩,
    fun _ => ⟨": Must be logged in to delete a box", ?_⟩,
    fun _ _ => ⟨": Must be logged in to respond to submissions", ?_⟩,
    fun _ => ⟨": Must be logged in to generate links", ?_⟩,
    fun _ => ⟨": Must be logged in to manage links", ?_⟩,
    fun _ => ⟨": Must be logged in to delete links", ?_⟩⟩
  all_goals
    simp only [createBoxAction, updateBoxAction, deleteBoxAction, updateSubmissionAction,
      generateLinkAction, toggleLinkStatusAction, deleteLinkAction,
      tryCatch, tryCatchThe, MonadExceptOf.tryCatch, bind, throw, throwThe,
      MonadExceptOf.throw, pure, tryCatch_call_bind, tryCatch_throw, catchBlock_run, hs, hu,
      Thrown.message]
    rfl

/-- Instance of `unauthenticated_is_rejected`: with no session, deleting the box
of `alice` is refused and nothing but the session lookup is called. -/
theorem unauthenticated_is_rejected_witness :
    (memoryEnv none).getServerSession aliceStore = (.ok none, aliceStore) ∧
    sessionUserId none = none ∧
    ∃ rest, deleteBoxAction (memoryEnv none) "b1" aliceStore =
      ⟨.ok (.failure (some ("Unauthorized" ++ rest))), aliceStore,
        [.returned .getServerSession,
          .logged "Delete box action error:" (.error ("Unauthorized" ++ rest))]⟩ :=
  ⟨rfl, rfl,
    (unauthenticated_is_rejected (memoryEnv none) aliceStore aliceStore none rfl rfl).2.2.1 "b1"⟩

/-- C7: `createBoxAction` and `updateBoxAction`, called with a valid session, on
every form in which `name` or `description` is missing or is the empty string,
resolve to `{ success: false, error: "Name and description are required" }`
after a run whose only events are the session lookup and the `console.error`
of the catch block: neither `createBox` nor `updateBox` is called and no path
is invalidated. -/
theorem missing_fields_are_rejected {σ : Type} (env : Env σ) (s s1 : σ)
    (session : Option Session) (userId : String) (fd : FormData)
    (hs : env.getServerSession s = (.ok session, s1))
    (hu : sessionUserId session = some userId)
    (hf : fd.get "name" = none ∨ fd.get "name" = some (.text "") ∨
      fd.get "description" = none ∨ fd.get "description" = some (.text "")) :
    createBoxAction env fd s =
      ⟨.ok (.failure (some "Name and description are required")), s1,
        [.returned .getServerSession,
          .logged "Create box action error:" (.error "Name and description are required")]⟩ ∧
    ∀ boxId, updateBoxAction env boxId fd s =
      ⟨.ok (.failure (some "Name and description are required")), s1,
        [.returned .getServerSession,
          .logged "Update box action error:" (.error "Name and description are required")]⟩ := by
  have hn : truthy (fd.get "name") = none ∨ truthy (fd.get "description") = none := by
    rcases hf with h | h | h | h
    · exact Or.inl (by rw [h]; rfl)
    · exact Or.inl (by rw [h]; rfl)
    · exact Or.inr (by rw [h]; rfl)
    · exact Or.inr (by rw [h]; rfl)
  refine ⟨?_, fun boxId => ?_⟩
  all_goals
    simp only [createBoxAction, updateBoxAction, tryCatch, tryCatchThe, MonadExceptOf.tryCatch,
      bind, throw, throwThe, MonadExceptOf.throw, pure, tryCatch_call_bind, hs, hu]
    rcases hn with h | h
    · simp only [h, tryCatch_throw, catchBlock_run, Thrown.message]
    · rcases truthy (fd.get "name") with _ | v <;>
        simp only [h, tryCatch_throw, catchBlock_run, Thrown.message]

/-- Instance of `missing_fields_are_rejected`: `alice` submits a form with a name
and an empty description. -/
theorem missing_fields_are_rejected_witness :
    (memoryEnv (sessionOf "alice")).getServerSession aliceStore =
      (.ok (sessionOf "alice"), aliceStore) ∧
    sessionUserId (sessionOf "alice") = some "alice" ∧
    (formOf [("name", "Ideas"), ("description", "")]).get "description" = some (.text "") ∧
    createBoxAction (memoryEnv (sessionOf "alice")) (formOf [("name", "Ideas"), ("description", "")])
        aliceStore =
      ⟨.ok (.failure (some "Name and description are required")), aliceStore,
        [.returned .getServerSession,
          .logged "Create box action error:" (.error "Name and description are required")]⟩ :=
  ⟨rfl, by decide, by decide,
    (missing_fields_are_rejected (memoryEnv (sessionOf "alice")) aliceStore
      aliceStore (sessionOf "alice") "alice"
      (formOf [("name", "Ideas"), ("description", "")]) rfl (by decide)
      (Or.inr (Or.inr (Or.inr (by decide))))).1⟩

/-- C6: `deleteLinkAction`, called with a valid session on a token for which
`getLinkByToken` returns no link, resolves to exactly
`{ success: false, error: "Link not found" }` after a run whose only events are
the session lookup, the link lookup and the `console.error` of the catch
block: `getBoxById`, `deleteLink` and `revalidatePath` are not called. -/
theorem deleteLink_of_unknown_token {σ : Type} (env : Env σ) (s s1 s2 : σ)
    (session : Option Session) (userId token : String)
    (hs : env.getServerSession s = (.ok session, s1))
    (hu : sessionUserId session = some userId)
    (hl : env.getLinkByToken token s1 = (.ok none, s2)) :
    deleteLinkAction env token s =
      ⟨.ok (.failure (some "Link not found")), s2,
        [.returned .getServerSession, .returned (.getLinkByToken token),
          .logged "Delete link action error:" (.error "Link not found")]⟩ := by
  simp only [deleteLinkAction, tryCatch, tryCatchThe, MonadExceptOf.tryCatch, bind, throw,
    throwThe, MonadExceptOf.throw, pure, tryCatch_call_bind, hs, hu, hl, tryCatch_throw,
    catchBlock_run, Thrown.message]

/-- Instance of `deleteLink_of_unknown_token`: `alice` deletes a token that no
link carries. -/
theorem deleteLink_of_unknown_token_witness :
    (memoryEnv (sessionOf "alice")).getServerSession aliceStore =
      (.ok (sessionOf "alice"), aliceStore) ∧
    sessionUserId (sessionOf "alice") = some "alice" ∧
    (memoryEnv (sessionOf "alice")).getLinkByToken "nope" aliceStore =
      (.ok none, aliceStore) ∧
    deleteLinkAction (memoryEnv (sessionOf "alice")) "nope" aliceStore =
      ⟨.ok (.failure (some "Link not found")), aliceStore,
        [.returned .getServerSession, .returned (.getLinkByToken "nope"),
          .logged "Delete link action error:" (.error "Link not found")]⟩ :=
  ⟨rfl, by decide, rfl,
    deleteLink_of_unknown_token (memoryEnv (sessionOf "alice")) aliceStore
      aliceStore aliceStore (sessionOf "alice") "alice"
      "nope" rfl (by decide) rfl⟩

theorem notOwner_eq_true_iff (box : Option Box) (userId : String) :
    notOwner box userId = true ↔ box = none ∨ ∃ b, box = some b ∧ b.adminId ≠ userId := by
  cases box <;> simp [notOwner]

theorem notOwner_eq_false_iff (box : Option Box) (userId : String) :
    notOwner box userId = false ↔ ∃ b, box = some b ∧ b.adminId = userId := by
  cases box <;> simp [notOwner]

theorem generateLink_called_by_owner {σ : Type} (env : Env σ) (s : σ) (fd : FormData)
    (boxId : FormValue)
    (h : Call.generateLink boxId ∈ calls (generateLinkAction env fd s).trace) :
    ∃ session s1 userId box s2, env.getServerSession s = (.ok session, s1) ∧
      sessionUserId session = some userId ∧
      env.getBoxById boxId s1 = (.ok (some box), s2) ∧ box.adminId = userId := by
  generalize hr : generateLinkAction env fd s = r at h
  simp only [generateLinkAction, tryCatch, tryCatchThe, MonadExceptOf.tryCatch, bind, throw,
    throwThe, MonadExceptOf.throw, pure, tryCatch_call_bind] at hr
  repeat' (first
    | split at hr
    | simp only [tryCatch_call_bind, tryCatch_throw, tryCatch_pure, catchBlock_run,
        pure_bind_run, throw_bind_run] at hr)
  all_goals subst hr
  all_goals simp only [calls, List.mem_cons, List.mem_nil_iff, reduceCtorEq, or_false, false_or,
    Call.generateLink.injEq] at h
  all_goals
    obtain rfl := h
    obtain ⟨b, hb, ho⟩ := (notOwner_eq_false_iff _ _).1 (Bool.eq_false_iff.2 ‹_›)
    subst hb
    exact ⟨_, _, _, _, _, by assumption, by assumption, by assumption, ho⟩

theorem updateLinkStatus_called_by_owner {σ : Type} (env : Env σ) (s : σ) (token tok : String)
    (isActive : Bool)
    (h : Call.updateLinkStatus tok isActive ∈ calls (toggleLinkStatusAction env token s).trace) :
    ∃ session s1 userId link s2 box s3, env.getServerSession s = (.ok session, s1) ∧
      sessionUserId session = some userId ∧
      env.getLinkByToken token s1 = (.ok (some link), s2) ∧
      env.getBoxById (.text link.boxId) s2 = (.ok (some box), s3) ∧ box.adminId = userId ∧
      tok = token ∧ isActive = !link.isActive := by
  generalize hr : toggleLinkStatusAction env token s = r at h
  simp only [toggleLinkStatusAction, tryCatch, tryCatchThe, MonadExceptOf.tryCatch, bind, throw,
    throwThe, MonadExceptOf.throw, pure, tryCatch_call_bind] at hr
  repeat' (first
    | split at hr
    | simp only [tryCatch_call_bind, tryCatch_throw, tryCatch_pure, catchBlock_run,
        pure_bind_run, throw_bind_run] at hr)
  all_goals subst hr
  all_goals simp only [calls, List.mem_cons, List.mem_nil_iff, reduceCtorEq, or_false, false_or,
    Call.updateLinkStatus.injEq] at h
  all_goals
    obtain ⟨rfl, rfl⟩ := h
    obtain ⟨b, hb, ho⟩ := (notOwner_eq_false_iff _ _).1 (Bool.eq_false_iff.2 ‹_›)
    subst hb
    exact ⟨_, _, _, _, _, _, _, by assumption, by assumption, by assumption, by assumption, ho, rfl, rfl⟩

theorem deleteLink_called_by_owner {σ : Type} (env : Env σ) (s : σ) (token tok : String)
    (h : Call.deleteLink tok ∈ calls (deleteLinkAction env token s).trace) :
    ∃ session s1 userId link s2 box s3, env.getServerSession s = (.ok session, s1) ∧
      sessionUserId session = some userId ∧
      env.getLinkByToken token s1 = (.ok (some link), s2) ∧
      env.getBoxById (.text link.boxId) s2 = (.ok (some box), s3) ∧ box.adminId = userId ∧
      tok = token := by
  generalize hr : deleteLinkAction env token s = r at h
  simp only [deleteLinkAction, tryCatch, tryCatchThe, MonadExceptOf.tryCatch, bind, throw,
    throwThe, MonadExceptOf.throw, pure, tryCatch_call_bind] at hr
  repeat' (first
    | split at hr
    | simp only [tryCatch_call_bind, tryCatch_throw, tryCatch_pure, catchBlock_run,
        pure_bind_run, throw_bind_run] at hr)
  all_goals subst hr
  all_goals simp only [calls, List.mem_cons, List.mem_nil_iff, reduceCtorEq, or_false, false_or,
    Call.deleteLink.injEq] at h
  all_goals
    obtain rfl := h
    obtain ⟨b, hb, ho⟩ := (notOwner_eq_false_iff _ _).1 (Bool.eq_false_iff.2 ‹_›)
    subst hb
    exact ⟨_, _, _, _, _, _, _, by assumption, by assumption, by assumption, by assumption, ho, rfl⟩

/-- C3: for `generateLinkAction`, `toggleLinkStatusAction` and
`deleteLinkAction` called with a valid session of user `userId`: when the box
returned by `getBoxById` (for the form's `boxId`, or for the `boxId` of the
link found) is absent or has another `adminId`, the action resolves to
`{ success: false, error: m }` with `m` beginning "Unauthorized", and the run
consists of the lookups and the `console.error` only, so that none of
`generateLink`, `updateLinkStatus`, `deleteLink`, `revalidatePath` is called and
the store is the one the lookups left.  Conversely, on every run of these
actions, whatever the collaborators do, a call of `generateLink`,
`updateLinkStatus` or `deleteLink` is made only if the session lookup returned
a user id and `getBoxById` returned the parent box with that user id as its
`adminId`. -/
theorem link_actions_require_owner {σ : Type} (env : Env σ) (s : σ) :
    (∀ session s1 userId, env.getServerSession s = (.ok session, s1) →
      sessionUserId session = some userId →
      (∀ fd boxId box s2, truthy (fd.get "boxId") = some boxId →
        env.getBoxById boxId s1 = (.ok box, s2) →
        (box = none ∨ ∃ b, box = some b ∧ b.adminId ≠ userId) →
        ∃ rest, generateLinkAction env fd s =
          ⟨.ok (.failure (some ("Unauthorized" ++ rest))), s2,
            [.returned .getServerSession, .returned (.getBoxById boxId),
              .logged "Generate link action error:" (.error ("Unauthorized" ++ rest))]⟩) ∧
      (∀ token link s2 box s3, env.getLinkByToken token s1 = (.ok (some link), s2) →
        env.getBoxById (.text link.boxId) s2 = (.ok box, s3) →
        (box = none ∨ ∃ b, box = some b ∧ b.adminId ≠ userId) →
        (∃ rest, toggleLinkStatusAction env token s =
          ⟨.ok (.failure (some ("Unauthorized" ++ rest))), s3,
            [.returned .getServerSession, .returned (.getLinkByToken token),
              .returned (.getBoxById (.text link.boxId)),
              .logged "Toggle link status action error:" (.error ("Unauthorized" ++ rest))]⟩) ∧
        ∃ rest, deleteLinkAction env token s =
          ⟨.ok (.failure (some ("Unauthorized" ++ rest))), s3,
            [.returned .getServerSession, .returned (.getLinkByToken token),
              .returned (.getBoxById (.text link.boxId)),
              .logged "Delete link action error:" (.error ("Unauthorized" ++ rest))]⟩)) ∧
    (∀ fd boxId, Call.generateLink boxId ∈ calls (generateLinkAction env fd s).trace →
      ∃ session s1 userId box s2, env.getServerSession s = (.ok session, s1) ∧
        sessionUserId session = some userId ∧
        env.getBoxById boxId s1 = (.ok (some box), s2) ∧ box.adminId = userId) ∧
    (∀ token tok isActive,
      Call.updateLinkStatus tok isActive ∈ calls (toggleLinkStatusAction env token s).trace →
      ∃ session s1 userId link s2 box s3, env.getServerSession s = (.ok session, s1) ∧
        sessionUserId session = some userId ∧
        env.getLinkByToken token s1 = (.ok (some link), s2) ∧
        env.getBoxById (.text link.boxId) s2 = (.ok (some box), s3) ∧ box.adminId = userId ∧
        tok = token ∧ isActive = !link.isActive) ∧
    (∀ token tok, Call.deleteLink tok ∈ calls (deleteLinkAction env token s).trace →
      ∃ session s1 userId link s2 box s3, env.getServerSession s = (.ok session, s1) ∧
        sessionUserId session = some userId ∧
        env.getLinkByToken token s1 = (.ok (some link), s2) ∧
        env.getBoxById (.text link.boxId) s2 = (.ok (some box), s3) ∧ box.adminId = userId ∧
        tok = token) := by
  refine ⟨fun session s1 userId hs hu => ⟨fun fd boxId box s2 hf hb ho => ?_,
    fun token link s2 box s3 hl hb ho => ⟨?_, ?_⟩⟩,
    fun fd boxId => generateLink_called_by_owner env s fd boxId,
    fun token tok isActive => updateLinkStatus_called_by_owner env s token tok isActive,
    fun token tok => deleteLink_called_by_owner env s token tok⟩
  · refine ⟨": Box not found or you do not have permission", ?_⟩
    rw [← notOwner_eq_true_iff] at ho
    simp only [generateLinkAction, tryCatch, tryCatchThe, MonadExceptOf.tryCatch, bind, throw,
      throwThe, MonadExceptOf.throw, pure, tryCatch_call_bind, hs, hu, hf, hb, ho, if_true,
      throw_bind_run, tryCatch_throw, catchBlock_run, Thrown.message]
    rfl
  · refine ⟨": You do not have permission to manage this link", ?_⟩
    rw [← notOwner_eq_true_iff] at ho
    simp only [toggleLinkStatusAction, tryCatch, tryCatchThe, MonadExceptOf.tryCatch, bind, throw,
      throwThe, MonadExceptOf.throw, pure, tryCatch_call_bind, hs, hu, hl, hb, ho, if_true,
      throw_bind_run, tryCatch_throw, catchBlock_run, Thrown.message]
    rfl
  · refine ⟨": You do not have permission to delete this link", ?_⟩
    rw [← notOwner_eq_true_iff] at ho
    simp only [deleteLinkAction, tryCatch, tryCatchThe, MonadExceptOf.tryCatch, bind, throw,
      throwThe, MonadExceptOf.throw, pure, tryCatch_call_bind, hs, hu, hl, hb, ho, if_true,
      throw_bind_run, tryCatch_throw, catchBlock_run, Thrown.message]
    rfl

/-- Instance of `link_actions_require_owner`: `mallory`, logged in, toggles the
link of the box of `alice`; the action is refused after the two lookups and
the store is unchanged. -/
theorem link_actions_require_owner_witness :
    (memoryEnv (sessionOf "mallory")).getServerSession aliceStore =
      (.ok (sessionOf "mallory"), aliceStore) ∧
    sessionUserId (sessionOf "mallory") = some "mallory" ∧
    (memoryEnv (sessionOf "mallory")).getLinkByToken "t1" aliceStore =
      (.ok (some aliceLink), aliceStore) ∧
    (memoryEnv (sessionOf "mallory")).getBoxById (.text aliceLink.boxId) aliceStore =
      (.ok (some aliceBox), aliceStore) ∧
    aliceBox.adminId ≠ "mallory" ∧
    ∃ rest, toggleLinkStatusAction (memoryEnv (sessionOf "mallory")) "t1" aliceStore =
      ⟨.ok (.failure (some ("Unauthorized" ++ rest))), aliceStore,
        [.returned .getServerSession, .returned (.getLinkByToken "t1"),
          .returned (.getBoxById (.text aliceLink.boxId)),
          .logged "Toggle link status action error:" (.error ("Unauthorized" ++ rest))]⟩ :=
  ⟨rfl, by decide, rfl, rfl, by decide,
    (((link_actions_require_owner (memoryEnv (sessionOf "mallory")) aliceStore).1
      (sessionOf "mallory") aliceStore "mallory" rfl (by decide)).2
      "t1" aliceLink aliceStore (some aliceBox)
      aliceStore rfl rfl (Or.inr ⟨aliceBox, rfl, by decide⟩)).1⟩

theorem truthy_text (v : String) (h : v ≠ "") : truthy (some (.text v)) = some (.text v) := by
  simp [truthy, h]

/-- C10, as amended: `createBoxAction`, called with a valid session of user
`userId` on a form whose `name` is the non-empty string `n` and whose `description` is the
non-empty string `d` (whatever else the form holds), calls `createBox` exactly
once, with owner `userId` and data exactly `{ name: n, description: d }`, its
only other calls being the session lookup before and `revalidatePath` after;
and when `createBox` returns the box `x` and `revalidatePath("/dashboard")`
returns, the action resolves to `{ success: true, data: x }`. -/
theorem createBox_binds_owner {σ : Type} (env : Env σ) (s s1 : σ) (session : Option Session)
    (userId n d : String) (fd : FormData)
    (hs : env.getServerSession s = (.ok session, s1))
    (hu : sessionUserId session = some userId)
    (hn : fd.get "name" = some (.text n)) (hn0 : n ≠ "")
    (hd : fd.get "description" = some (.text d)) (hd0 : d ≠ "") :
    (calls (createBoxAction env fd s).trace = [.getServerSession, .createBox userId ⟨n, d⟩] ∨
      calls (createBoxAction env fd s).trace =
        [.getServerSession, .createBox userId ⟨n, d⟩, .revalidatePath "/dashboard"]) ∧
    ∀ x s2 s3, env.createBox userId ⟨n, d⟩ s1 = (.ok x, s2) →
      env.revalidatePath "/dashboard" s2 = (.ok (), s3) →
      createBoxAction env fd s =
        ⟨.ok (.success x), s3,
          [.returned .getServerSession, .returned (.createBox userId ⟨n, d⟩),
            .returned (.revalidatePath "/dashboard")]⟩ := by
  have hrun : createBoxAction env fd s =
      Act.tryCatch
        (Act.bind (call .getServerSession env.getServerSession) fun _ =>
          Act.bind (call (.createBox userId ⟨n, d⟩) (env.createBox userId ⟨n, d⟩)) fun newBox =>
            Act.bind (call (.revalidatePath "/dashboard") (env.revalidatePath "/dashboard"))
              fun _ => Act.pure (Envelope.success newBox))
        (fun error => catchBlock "Create box action error:" error) s := by
    simp only [createBoxAction, tryCatch, tryCatchThe, MonadExceptOf.tryCatch, bind, throw,
      throwThe, MonadExceptOf.throw, pure, tryCatch_call_bind, hs, hu, hn, hd,
      truthy_text n hn0, truthy_text d hd0, FormValue.toString]
  refine ⟨?_, fun x s2 s3 hc hr => ?_⟩
  · generalize hq : createBoxAction env fd s = r
    rw [hrun] at hq
    simp only [tryCatch_call_bind, hs] at hq
    repeat' (first
      | split at hq
      | simp only [tryCatch_call_bind, tryCatch_throw, tryCatch_pure, catchBlock_run] at hq)
    all_goals subst hq
    all_goals simp [calls]
  · rw [hrun]
    simp only [tryCatch_call_bind, hs, hc, hr, tryCatch_pure]

/-- Instance of `createBox_binds_owner`: `alice` creates the box "Ideas"; a form
field `adminId` naming `mallory` does not reach the store. -/
theorem createBox_binds_owner_witness :
    (memoryEnv (sessionOf "alice")).getServerSession aliceStore =
      (.ok (sessionOf "alice"), aliceStore) ∧
    sessionUserId (sessionOf "alice") = some "alice" ∧
    (formOf [("name", "Ideas"), ("description", "Share"), ("adminId", "mallory")]).get "name" =
      some (.text "Ideas") ∧
    (formOf [("name", "Ideas"), ("description", "Share"), ("adminId", "mallory")]).get
      "description" = some (.text "Share") ∧
    createBoxAction (memoryEnv (sessionOf "alice"))
        (formOf [("name", "Ideas"), ("description", "Share"), ("adminId", "mallory")])
        aliceStore =
      ⟨.ok (.success ⟨"box-1", "alice", "Ideas", "Share"⟩),
        ⟨[aliceBox, ⟨"box-1", "alice", "Ideas", "Share"⟩], [aliceSubmission],
          [aliceLink]⟩,
        [.returned .getServerSession, .returned (.createBox "alice" ⟨"Ideas", "Share"⟩),
          .returned (.revalidatePath "/dashboard")]⟩ :=
  ⟨rfl, by decide, by decide, by decide,
    (createBox_binds_owner (memoryEnv (sessionOf "alice")) aliceStore aliceStore
      (sessionOf "alice") "alice" "Ideas" "Share"
      (formOf [("name", "Ideas"), ("description", "Share"), ("adminId", "mallory")])
      rfl (by decide) (by decide) (by decide) (by decide) (by decide)).2
      ⟨"box-1", "alice", "Ideas", "Share"⟩
      ⟨[aliceBox, ⟨"box-1", "alice", "Ideas", "Share"⟩], [aliceSubmission],
        [aliceLink]⟩
      ⟨[aliceBox, ⟨"box-1", "alice", "Ideas", "Share"⟩], [aliceSubmission],
        [aliceLink]⟩ rfl rfl⟩

/-- C8, as amended: `createSubmissionAction` consults no session: for every
non-empty `boxId` and every form whose `message` is the non-empty string `m`, whatever
the collaborators (the session provider among them) do, its first call is
`createSubmission(boxId, { message: m })`, made exactly once, and its only
other call, if any, is `revalidatePath("/box/" ++ boxId)`; when
`createSubmission` returns the submission `sub` the invalidated paths are
exactly `["/box/" ++ boxId]`, and when `revalidatePath` returns as well the
action resolves to `{ success: true, data: sub }`. -/
theorem createSubmission_is_public {σ : Type} (env : Env σ) (s : σ) (boxId m : String)
    (fd : FormData) (hb : boxId ≠ "") (hf : fd.get "message" = some (.text m)) (hm : m ≠ "") :
    (calls (createSubmissionAction env boxId fd s).trace = [.createSubmission boxId ⟨m⟩] ∨
      calls (createSubmissionAction env boxId fd s).trace =
        [.createSubmission boxId ⟨m⟩, .revalidatePath ("/box/" ++ boxId)]) ∧
    ∀ sub s1, env.createSubmission boxId ⟨m⟩ s = (.ok sub, s1) →
      invalidated (createSubmissionAction env boxId fd s).trace = ["/box/" ++ boxId] ∧
      ∀ s2, env.revalidatePath ("/box/" ++ boxId) s1 = (.ok (), s2) →
        createSubmissionAction env boxId fd s =
          ⟨.ok (.success sub), s2,
            [.returned (.createSubmission boxId ⟨m⟩),
              .returned (.revalidatePath ("/box/" ++ boxId))]⟩ := by
  have hrun : createSubmissionAction env boxId fd s =
      Act.tryCatch
        (Act.bind (call (.createSubmission boxId ⟨m⟩) (env.createSubmission boxId ⟨m⟩))
          fun newSubmission =>
            Act.bind
              (call (.revalidatePath ("/box/" ++ boxId)) (env.revalidatePath ("/box/" ++ boxId)))
              fun _ => Act.pure (Envelope.success newSubmission))
        (fun error => catchBlock "Create submission action error:" error) s := by
    simp only [createSubmissionAction, tryCatch, tryCatchThe, MonadExceptOf.tryCatch, bind,
      throw, throwThe, MonadExceptOf.throw, pure, hf, truthy_text m hm, hb, if_false,
      pure_bind_run, FormValue.toString]
  refine ⟨?_, fun sub s1 hc => ⟨?_, fun s2 hr => ?_⟩⟩
  · generalize hq : createSubmissionAction env boxId fd s = r
    rw [hrun] at hq
    simp only [tryCatch_call_bind] at hq
    repeat' (first
      | split at hq
      | simp only [tryCatch_call_bind, tryCatch_throw, tryCatch_pure, catchBlock_run] at hq)
    all_goals subst hq
    all_goals simp [calls]
  · generalize hq : createSubmissionAction env boxId fd s = r
    rw [hrun] at hq
    simp only [tryCatch_call_bind, hc] at hq
    repeat' (first
      | split at hq
      | simp only [tryCatch_call_bind, tryCatch_throw, tryCatch_pure, catchBlock_run] at hq)
    all_goals subst hq
    all_goals simp [invalidated]
  · rw [hrun]
    simp only [tryCatch_call_bind, hc, hr, tryCatch_pure]

/-- Instance of `createSubmission_is_public`: with nobody logged in, the message
"hello" is submitted into the box "b1". -/
theorem createSubmission_is_public_witness :
    "b1" ≠ "" ∧ (formOf [("message", "hello")]).get "message" = some (.text "hello") ∧
    "hello" ≠ "" ∧
    (memoryEnv none).createSubmission "b1" ⟨"hello"⟩ aliceStore =
      (.ok ⟨"submission-1", "b1", "hello", none⟩,
        ⟨[aliceBox], [aliceSubmission, ⟨"submission-1", "b1", "hello", none⟩],
          [aliceLink]⟩) ∧
    createSubmissionAction (memoryEnv none) "b1" (formOf [("message", "hello")]) aliceStore =
      ⟨.ok (.success ⟨"submission-1", "b1", "hello", none⟩),
        ⟨[aliceBox], [aliceSubmission, ⟨"submission-1", "b1", "hello", none⟩],
          [aliceLink]⟩,
        [.returned (.createSubmission "b1" ⟨"hello"⟩), .returned (.revalidatePath "/box/b1")]⟩ :=
  ⟨by decide, by decide, by decide, rfl,
    ((createSubmission_is_public (memoryEnv none) aliceStore "b1" "hello"
      (formOf [("message", "hello")]) (by decide) (by decide) (by decide)).2
      ⟨"submission-1", "b1", "hello", none⟩
      ⟨[aliceBox], [aliceSubmission, ⟨"submission-1", "b1", "hello", none⟩], [aliceLink]⟩
      rfl).2
      ⟨[aliceBox], [aliceSubmission, ⟨"submission-1", "b1", "hello", none⟩], [aliceLink]⟩
      rfl⟩

theorem toggle_of_owner {σ : Type} (env : Env σ) (s s1 s2 s3 s4 s5 : σ)
    (session : Option Session) (userId token : String) (link updated : Link) (box : Box)
    (hs : env.getServerSession s = (.ok session, s1))
    (hu : sessionUserId session = some userId)
    (hl : env.getLinkByToken token s1 = (.ok (some link), s2))
    (hb : env.getBoxById (.text link.boxId) s2 = (.ok (some box), s3))
    (ho : box.adminId = userId)
    (hup : env.updateLinkStatus token (!link.isActive) s3 = (.ok updated, s4))
    (hr : env.revalidatePath ("/dashboard/box/" ++ link.boxId) s4 = (.ok (), s5)) :
    toggleLinkStatusAction env token s =
      ⟨.ok (.success updated), s5,
        [.returned .getServerSession, .returned (.getLinkByToken token),
          .returned (.getBoxById (.text link.boxId)),
          .returned (.updateLinkStatus token (!link.isActive)),
          .returned (.revalidatePath ("/dashboard/box/" ++ link.boxId))]⟩ := by
  have hno : notOwner (some box) userId = false := by simp [notOwner, ho]
  simp only [toggleLinkStatusAction, tryCatch, tryCatchThe, MonadExceptOf.tryCatch, bind, throw,
    throwThe, MonadExceptOf.throw, pure, tryCatch_call_bind, hs, hu, hl, hb, hno,
    Bool.false_eq_true, if_false, pure_bind_run, hup, hr, tryCatch_pure]

/-- C5, as amended: toggling twice restores `isActive`.  Over a store whose
stored link and stored box are observed by `linkOf` and `boxOf`, in which the session is that
of `userId`, `getLinkByToken(t)` returns the stored link, `getBoxById` returns
the stored box, `updateLinkStatus(t, b)` sets the `isActive` of the link `t` to
`b` and leaves the boxes alone, and `revalidatePath` returns and leaves links
and boxes alone: for every token of a stored link whose parent box has
`adminId = userId`, `toggleLinkStatusAction` succeeds and leaves the link with
`isActive` negated, and a second `toggleLinkStatusAction` from the store the
first one left succeeds too and leaves the link as it was at the start. -/
theorem toggle_twice_restores {σ : Type} (env : Env σ) (linkOf : σ → String → Option Link)
    (boxOf : σ → String → Option Box) (session : Option Session) (userId : String)
    (hu : sessionUserId session = some userId)
    (hsession : ∀ s, env.getServerSession s = (.ok session, s))
    (hget : ∀ t s, env.getLinkByToken t s = (.ok (linkOf s t), s))
    (hbox : ∀ id s, env.getBoxById (.text id) s = (.ok (boxOf s id), s))
    (hupd : ∀ t b s l, linkOf s t = some l →
      ∃ r s1, env.updateLinkStatus t b s = (.ok r, s1) ∧
        linkOf s1 t = some { l with isActive := b } ∧ boxOf s1 = boxOf s)
    (hrev : ∀ p s, ∃ s1, env.revalidatePath p s = (.ok (), s1) ∧
      linkOf s1 = linkOf s ∧ boxOf s1 = boxOf s)
    (token : String) (s : σ) (link : Link) (box : Box)
    (hl : linkOf s token = some link) (hb : boxOf s link.boxId = some box)
    (ho : box.adminId = userId) :
    (∃ d, (toggleLinkStatusAction env token s).outcome = .ok (.success d)) ∧
    linkOf (toggleLinkStatusAction env token s).store token =
      some { link with isActive := !link.isActive } ∧
    (∃ d, (toggleLinkStatusAction env token (toggleLinkStatusAction env token s).store).outcome =
      .ok (.success d)) ∧
    linkOf (toggleLinkStatusAction env token (toggleLinkStatusAction env token s).store).store
      token = some link := by
  obtain ⟨r1, s1, hu1, hl1, hb1⟩ := hupd token (!link.isActive) s link hl
  obtain ⟨s2, hr1, hl2, hb2⟩ := hrev ("/dashboard/box/" ++ link.boxId) s1
  have h1 := toggle_of_owner env s s s s s1 s2 session userId token link r1 box (hsession s) hu
    (by rw [hget, hl]) (by rw [hbox, hb]) ho hu1 hr1
  have hl3 : linkOf s2 token = some { link with isActive := !link.isActive } := by
    rw [hl2, hl1]
  have hb3 : boxOf s2 link.boxId = some box := by rw [hb2, hb1, hb]
  obtain ⟨r2, s3, hu2, hl4, _⟩ := hupd token (!(!link.isActive)) s2 _ hl3
  obtain ⟨s4, hr2, hl5, _⟩ := hrev ("/dashboard/box/" ++ link.boxId) s3
  have h2 := toggle_of_owner env s2 s2 s2 s2 s3 s4 session userId token
    { link with isActive := !link.isActive } r2 box (hsession s2) hu
    (by rw [hget, hl3]) (by rw [hbox, hb3]) ho hu2 hr2
  rw [h1]
  refine ⟨⟨r1, rfl⟩, hl3, ?_, ?_⟩
  · rw [h2]
    exact ⟨r2, rfl⟩
  · rw [h2]
    show linkOf s4 token = some link
    rw [hl5, hl4]
    simp

theorem find_after_update (links : List Link) (t : String) (b : Bool) (l : Link)
    (h : links.find? (fun x => x.token == t) = some l) :
    (links.map (fun x => if x.token == t then { l with isActive := b } else x)).find?
      (fun x => x.token == t) = some { l with isActive := b } := by
  induction links with
  | nil => simp at h
  | cons x xs ih =>
    by_cases hx : x.token = t
    · have hx1 : (x.token == t) = true := by simp [hx]
      simp only [List.find?_cons, hx1, Option.some.injEq] at h
      subst h
      simp only [List.map_cons, hx1, if_true, List.find?_cons]
    · have hx1 : (x.token == t) = false := by simp [hx]
      simp only [List.find?_cons, hx1] at h
      simp only [List.map_cons, hx1, Bool.false_eq_true, if_false, List.find?_cons]
      exact ih h

theorem memoryEnv_updateLinkStatus (session : Option Session) (t : String) (b : Bool) (s : Store)
    (l : Link) (h : s.findLink t = some l) :
    ∃ r s1, (memoryEnv session).updateLinkStatus t b s = (.ok r, s1) ∧
      s1.findLink t = some { l with isActive := b } ∧ s1.findBox = s.findBox := by
  refine ⟨{ l with isActive := b },
    { s with links := s.links.map (fun x => if x.token == t then { l with isActive := b } else x) },
    ?_, find_after_update s.links t b l h, rfl⟩
  simp only [memoryEnv, h]

/-- Instance of `toggle_twice_restores`: over the in-memory store, `alice`
toggles her active link `t1` twice; after the first toggle it is inactive,
after the second it is active again. -/
theorem toggle_twice_restores_witness :
    sessionUserId (sessionOf "alice") = some "alice" ∧
    aliceStore.findLink "t1" = some aliceLink ∧
    aliceStore.findBox aliceLink.boxId = some aliceBox ∧ aliceBox.adminId = "alice" ∧
    (∃ d, (toggleLinkStatusAction (memoryEnv (sessionOf "alice")) "t1" aliceStore).outcome =
      .ok (.success d)) ∧
    (toggleLinkStatusAction (memoryEnv (sessionOf "alice")) "t1" aliceStore).store.findLink "t1" =
      some { aliceLink with isActive := !aliceLink.isActive } ∧
    (∃ d, (toggleLinkStatusAction (memoryEnv (sessionOf "alice")) "t1"
      (toggleLinkStatusAction (memoryEnv (sessionOf "alice")) "t1" aliceStore).store).outcome =
      .ok (.success d)) ∧
    (toggleLinkStatusAction (memoryEnv (sessionOf "alice")) "t1"
      (toggleLinkStatusAction (memoryEnv (sessionOf "alice")) "t1" aliceStore).store).store.findLink
      "t1" = some aliceLink :=
  ⟨by decide, by decide, by decide, by decide,
    toggle_twice_restores (memoryEnv (sessionOf "alice")) Store.findLink Store.findBox
      (sessionOf "alice") "alice" (by decide) (fun _ => rfl) (fun _ _ => rfl) (fun _ _ => rfl)
      (fun t b s l h => memoryEnv_updateLinkStatus (sessionOf "alice") t b s l h)
      (fun _ s => ⟨s, rfl, rfl, rfl⟩) "t1" aliceStore aliceLink aliceBox (by decide) (by decide)
      (by decide)⟩

theorem createBox_invalidation {σ : Type} (env : Env σ) (s : σ) (fd : FormData) :
    InvalidatesOnlyAfterMutation (createBoxAction env fd s).trace := by
  generalize hr : createBoxAction env fd s = r
  simp only [createBoxAction, tryCatch, tryCatchThe, MonadExceptOf.tryCatch, bind, throw,
    throwThe, MonadExceptOf.throw, pure, tryCatch_call_bind] at hr
  repeat' (first
    | split at hr
    | simp only [tryCatch_call_bind, tryCatch_throw, tryCatch_pure, catchBlock_run,
        pure_bind_run, throw_bind_run] at hr)
  all_goals subst hr
  all_goals simp [InvalidatesOnlyAfterMutation, mutations, invalidated,
    invalidatesAfterMutation, Call.mutating]

theorem updateBox_invalidation {σ : Type} (env : Env σ) (s : σ) (boxId : String) (fd : FormData) :
    InvalidatesOnlyAfterMutation (updateBoxAction env boxId fd s).trace := by
  generalize hr : updateBoxAction env boxId fd s = r
  simp only [updateBoxAction, tryCatch, tryCatchThe, MonadExceptOf.tryCatch, bind, throw,
    throwThe, MonadExceptOf.throw, pure, tryCatch_call_bind] at hr
  repeat' (first
    | split at hr
    | simp only [tryCatch_call_bind, tryCatch_throw, tryCatch_pure, catchBlock_run,
        pure_bind_run, throw_bind_run] at hr)
  all_goals subst hr
  all_goals simp [InvalidatesOnlyAfterMutation, mutations, invalidated,
    invalidatesAfterMutation, Call.mutating]

theorem deleteBox_invalidation {σ : Type} (env : Env σ) (s : σ) (boxId : String) :
    InvalidatesOnlyAfterMutation (deleteBoxAction env boxId s).trace := by
  generalize hr : deleteBoxAction env boxId s = r
  simp only [deleteBoxAction, tryCatch, tryCatchThe, MonadExceptOf.tryCatch, bind, throw,
    throwThe, MonadExceptOf.throw, pure, tryCatch_call_bind] at hr
  repeat' (first
    | split at hr
    | simp only [tryCatch_call_bind, tryCatch_throw, tryCatch_pure, catchBlock_run,
        pure_bind_run, throw_bind_run] at hr)
  all_goals subst hr
  all_goals simp [InvalidatesOnlyAfterMutation, mutations, invalidated,
    invalidatesAfterMutation, Call.mutating]

theorem createSubmission_invalidation {σ : Type} (env : Env σ) (s : σ) (boxId : String)
    (fd : FormData) :
    InvalidatesOnlyAfterMutation (createSubmissionAction env boxId fd s).trace := by
  generalize hr : createSubmissionAction env boxId fd s = r
  simp only [createSubmissionAction, tryCatch, tryCatchThe, MonadExceptOf.tryCatch, bind, throw,
    throwThe, MonadExceptOf.throw, pure, tryCatch_call_bind] at hr
  repeat' (first
    | split at hr
    | simp only [tryCatch_call_bind, tryCatch_throw, tryCatch_pure, catchBlock_run,
        pure_bind_run, throw_bind_run] at hr)
  all_goals subst hr
  all_goals simp [InvalidatesOnlyAfterMutation, mutations, invalidated,
    invalidatesAfterMutation, Call.mutating]

theorem updateSubmission_invalidation {σ : Type} (env : Env σ) (s : σ) (submissionId : String)
    (fd : FormData) :
    InvalidatesOnlyAfterMutation (updateSubmissionAction env submissionId fd s).trace := by
  generalize hr : updateSubmissionAction env submissionId fd s = r
  simp only [updateSubmissionAction, tryCatch, tryCatchThe, MonadExceptOf.tryCatch, bind, throw,
    throwThe, MonadExceptOf.throw, pure, tryCatch_call_bind] at hr
  repeat' (first
    | split at hr
    | simp only [tryCatch_call_bind, tryCatch_throw, tryCatch_pure, catchBlock_run,
        pure_bind_run, throw_bind_run] at hr)
  all_goals subst hr
  all_goals simp [InvalidatesOnlyAfterMutation, mutations, invalidated,
    invalidatesAfterMutation, Call.mutating]

theorem generateLink_invalidation {σ : Type} (env : Env σ) (s : σ) (fd : FormData) :
    InvalidatesOnlyAfterMutation (generateLinkAction env fd s).trace := by
  generalize hr : generateLinkAction env fd s = r
  simp only [generateLinkAction, tryCatch, tryCatchThe, MonadExceptOf.tryCatch, bind, throw,
    throwThe, MonadExceptOf.throw, pure, tryCatch_call_bind] at hr
  repeat' (first
    | split at hr
    | simp only [tryCatch_call_bind, tryCatch_throw, tryCatch_pure, catchBlock_run,
        pure_bind_run, throw_bind_run] at hr)
  all_goals subst hr
  all_goals simp [InvalidatesOnlyAfterMutation, mutations, invalidated,
    invalidatesAfterMutation, Call.mutating]

theorem toggleLinkStatus_invalidation {σ : Type} (env : Env σ) (s : σ) (token : String) :
    InvalidatesOnlyAfterMutation (toggleLinkStatusAction env token s).trace := by
  generalize hr : toggleLinkStatusAction env token s = r
  simp only [toggleLinkStatusAction, tryCatch, tryCatchThe, MonadExceptOf.tryCatch, bind, throw,
    throwThe, MonadExceptOf.throw, pure, tryCatch_call_bind] at hr
  repeat' (first
    | split at hr
    | simp only [tryCatch_call_bind, tryCatch_throw, tryCatch_pure, catchBlock_run,
        pure_bind_run, throw_bind_run] at hr)
  all_goals subst hr
  all_goals simp [InvalidatesOnlyAfterMutation, mutations, invalidated,
    invalidatesAfterMutation, Call.mutating]

theorem deleteLink_invalidation {σ : Type} (env : Env σ) (s : σ) (token : String) :
    InvalidatesOnlyAfterMutation (deleteLinkAction env token s).trace := by
  generalize hr : deleteLinkAction env token s = r
  simp only [deleteLinkAction, tryCatch, tryCatchThe, MonadExceptOf.tryCatch, bind, throw,
    throwThe, MonadExceptOf.throw, pure, tryCatch_call_bind] at hr
  repeat' (first
    | split at hr
    | simp only [tryCatch_call_bind, tryCatch_throw, tryCatch_pure, catchBlock_run,
        pure_bind_run, throw_bind_run] at hr)
  all_goals subst hr
  all_goals simp [InvalidatesOnlyAfterMutation, mutations, invalidated,
    invalidatesAfterMutation, Call.mutating]

theorem createBox_invalidates {σ : Type} (env : Env σ) (s : σ) (fd : FormData) (session : Option Session)
    (s1 s2 : σ) (userId : String) (name description : FormValue) (x : Box)
    (hs : env.getServerSession s = (.ok session, s1))
    (hu : sessionUserId session = some userId)
    (hn : truthy (fd.get "name") = some name)
    (hd : truthy (fd.get "description") = some description)
    (hc : env.createBox userId ⟨name.toString, description.toString⟩ s1 = (.ok x, s2)) :
    mutations (createBoxAction env fd s).trace =
      [.createBox userId ⟨name.toString, description.toString⟩] ∧
    invalidated (createBoxAction env fd s).trace = ["/dashboard"] := by
  generalize hr : createBoxAction env fd s = r
  simp only [createBoxAction, tryCatch, tryCatchThe, MonadExceptOf.tryCatch, bind, throw,
    throwThe, MonadExceptOf.throw, pure, tryCatch_call_bind, hs, hu, hn, hd, hc,
    Bool.false_eq_true, if_false, pure_bind_run] at hr
  repeat' (first
    | split at hr
    | simp only [tryCatch_call_bind, tryCatch_throw, tryCatch_pure, catchBlock_run,
        pure_bind_run, throw_bind_run] at hr)
  all_goals subst hr
  all_goals simp [mutations, invalidated, Call.mutating]

theorem updateBox_invalidates {σ : Type} (env : Env σ) (s : σ) (boxId : String) (fd : FormData)
    (session : Option Session) (s1 s2 : σ) (userId : String) (name description : FormValue)
    (x : Box)
    (hs : env.getServerSession s = (.ok session, s1))
    (hu : sessionUserId session = some userId)
    (hn : truthy (fd.get "name") = some name)
    (hd : truthy (fd.get "description") = some description)
    (hc : env.updateBox boxId ⟨name.toString, description.toString⟩ s1 = (.ok x, s2)) :
    mutations (updateBoxAction env boxId fd s).trace =
      [.updateBox boxId ⟨name.toString, description.toString⟩] ∧
    (∀ s3, env.revalidatePath "/dashboard" s2 = (.ok (), s3) →
      invalidated (updateBoxAction env boxId fd s).trace = ["/dashboard", "/box/" ++ boxId]) ∧
    (∀ e s3, env.revalidatePath "/dashboard" s2 = (.error e, s3) →
      invalidated (updateBoxAction env boxId fd s).trace = ["/dashboard"]) := by
  generalize hr : updateBoxAction env boxId fd s = r
  simp only [updateBoxAction, tryCatch, tryCatchThe, MonadExceptOf.tryCatch, bind, throw,
    throwThe, MonadExceptOf.throw, pure, tryCatch_call_bind, hs, hu, hn, hd, hc,
    Bool.false_eq_true, if_false, pure_bind_run] at hr
  repeat' (first
    | split at hr
    | simp only [tryCatch_call_bind, tryCatch_throw, tryCatch_pure, catchBlock_run,
        pure_bind_run, throw_bind_run] at hr)
  all_goals subst hr
  all_goals simp_all [mutations, invalidated, Call.mutating]

theorem deleteBox_invalidates {σ : Type} (env : Env σ) (s : σ) (boxId : String)
    (session : Option Session) (s1 s2 : σ) (userId : String) (x : Box)
    (hs : env.getServerSession s = (.ok session, s1))
    (hu : sessionUserId session = some userId)
    (hc : env.deleteBox boxId s1 = (.ok x, s2)) :
    mutations (deleteBoxAction env boxId s).trace = [.deleteBox boxId] ∧
    invalidated (deleteBoxAction env boxId s).trace = ["/dashboard"] := by
  generalize hr : deleteBoxAction env boxId s = r
  simp only [deleteBoxAction, tryCatch, tryCatchThe, MonadExceptOf.tryCatch, bind, throw,
    throwThe, MonadExceptOf.throw, pure, tryCatch_call_bind, hs, hu, hc,
    Bool.false_eq_true, if_false, pure_bind_run] at hr
  repeat' (first
    | split at hr
    | simp only [tryCatch_call_bind, tryCatch_throw, tryCatch_pure, catchBlock_run,
        pure_bind_run, throw_bind_run] at hr)
  all_goals subst hr
  all_goals simp [mutations, invalidated, Call.mutating]

theorem createSubmission_invalidates {σ : Type} (env : Env σ) (s : σ) (boxId : String)
    (fd : FormData) (s1 : σ) (message : FormValue) (x : Submission)
    (hm : truthy (fd.get "message") = some message) (hb : boxId ≠ "")
    (hc : env.createSubmission boxId ⟨message.toString⟩ s = (.ok x, s1)) :
    mutations (createSubmissionAction env boxId fd s).trace =
      [.createSubmission boxId ⟨message.toString⟩] ∧
    invalidated (createSubmissionAction env boxId fd s).trace = ["/box/" ++ boxId] := by
  generalize hr : createSubmissionAction env boxId fd s = r
  simp only [createSubmissionAction, tryCatch, tryCatchThe, MonadExceptOf.tryCatch, bind, throw,
    throwThe, MonadExceptOf.throw, pure, tryCatch_call_bind, hm, hb, hc,
    Bool.false_eq_true, if_false, pure_bind_run] at hr
  repeat' (first
    | split at hr
    | simp only [tryCatch_call_bind, tryCatch_throw, tryCatch_pure, catchBlock_run,
        pure_bind_run, throw_bind_run] at hr)
  all_goals subst hr
  all_goals simp [mutations, invalidated, Call.mutating]

theorem updateSubmission_invalidates {σ : Type} (env : Env σ) (s : σ) (submissionId : String)
    (fd : FormData) (session : Option Session) (s1 s2 : σ) (userId : String)
    (response : FormValue) (x : Submission)
    (hs : env.getServerSession s = (.ok session, s1))
    (hu : sessionUserId session = some userId)
    (hf : truthy (fd.get "response") = some response)
    (hc : env.updateSubmission submissionId ⟨response.toString⟩ s1 = (.ok x, s2)) :
    mutations (updateSubmissionAction env submissionId fd s).trace =
      [.updateSubmission submissionId ⟨response.toString⟩] ∧
    invalidated (updateSubmissionAction env submissionId fd s).trace = ["/dashboard"] := by
  generalize hr : updateSubmissionAction env submissionId fd s = r
  simp only [updateSubmissionAction, tryCatch, tryCatchThe, MonadExceptOf.tryCatch, bind, throw,
    throwThe, MonadExceptOf.throw, pure, tryCatch_call_bind, hs, hu, hf, hc,
    Bool.false_eq_true, if_false, pure_bind_run] at hr
  repeat' (first
    | split at hr
    | simp only [tryCatch_call_bind, tryCatch_throw, tryCatch_pure, catchBlock_run,
        pure_bind_run, throw_bind_run] at hr)
  all_goals subst hr
  all_goals simp [mutations, invalidated, Call.mutating]

theorem generateLink_invalidates {σ : Type} (env : Env σ) (s : σ) (fd : FormData)
    (session : Option Session) (s1 s2 s3 : σ) (userId : String) (boxId : FormValue) (box : Box)
    (x : Link)
    (hs : env.getServerSession s = (.ok session, s1))
    (hu : sessionUserId session = some userId)
    (hf : truthy (fd.get "boxId") = some boxId)
    (hb : env.getBoxById boxId s1 = (.ok (some box), s2)) (ho : box.adminId = userId)
    (hc : env.generateLink boxId s2 = (.ok x, s3)) :
    mutations (generateLinkAction env fd s).trace = [.generateLink boxId] ∧
    invalidated (generateLinkAction env fd s).trace = ["/dashboard/box/" ++ boxId.toString] := by
  have hno : notOwner (some box) userId = false := by simp [notOwner, ho]
  generalize hr : generateLinkAction env fd s = r
  simp only [generateLinkAction, tryCatch, tryCatchThe, MonadExceptOf.tryCatch, bind, throw,
    throwThe, MonadExceptOf.throw, pure, tryCatch_call_bind, hs, hu, hf, hb, hno, hc,
    Bool.false_eq_true, if_false, pure_bind_run] at hr
  repeat' (first
    | split at hr
    | simp only [tryCatch_call_bind, tryCatch_throw, tryCatch_pure, catchBlock_run,
        pure_bind_run, throw_bind_run] at hr)
  all_goals subst hr
  all_goals simp [mutations, invalidated, Call.mutating]

theorem toggleLinkStatus_invalidates {σ : Type} (env : Env σ) (s : σ) (token : String)
    (session : Option Session) (s1 s2 s3 s4 : σ) (userId : String) (link : Link) (box : Box)
    (x : Link)
    (hs : env.getServerSession s = (.ok session, s1))
    (hu : sessionUserId session = some userId)
    (hl : env.getLinkByToken token s1 = (.ok (some link), s2))
    (hb : env.getBoxById (.text link.boxId) s2 = (.ok (some box), s3))
    (ho : box.adminId = userId)
    (hc : env.updateLinkStatus token (!link.isActive) s3 = (.ok x, s4)) :
    mutations (toggleLinkStatusAction env token s).trace = [.updateLinkStatus token (!link.isActive)] ∧
    invalidated (toggleLinkStatusAction env token s).trace = ["/dashboard/box/" ++ link.boxId] := by
  have hno : notOwner (some box) userId = false := by simp [notOwner, ho]
  generalize hr : toggleLinkStatusAction env token s = r
  simp only [toggleLinkStatusAction, tryCatch, tryCatchThe, MonadExceptOf.tryCatch, bind, throw,
    throwThe, MonadExceptOf.throw, pure, tryCatch_call_bind, hs, hu, hl, hb, hno, hc,
    Bool.false_eq_true, if_false, pure_bind_run] at hr
  repeat' (first
    | split at hr
    | simp only [tryCatch_call_bind, tryCatch_throw, tryCatch_pure, catchBlock_run,
        pure_bind_run, throw_bind_run] at hr)
  all_goals subst hr
  all_goals simp [mutations, invalidated, Call.mutating]

theorem deleteLink_invalidates {σ : Type} (env : Env σ) (s : σ) (token : String)
    (session : Option Session) (s1 s2 s3 s4 : σ) (userId : String) (link : Link) (box : Box)
    (x : Link)
    (hs : env.getServerSession s = (.ok session, s1))
    (hu : sessionUserId session = some userId)
    (hl : env.getLinkByToken token s1 = (.ok (some link), s2))
    (hb : env.getBoxById (.text link.boxId) s2 = (.ok (some box), s3))
    (ho : box.adminId = userId)
    (hc : env.deleteLink token s3 = (.ok x, s4)) :
    mutations (deleteLinkAction env token s).trace = [.deleteLink token] ∧
    invalidated (deleteLinkAction env token s).trace = ["/dashboard/box/" ++ link.boxId] := by
  have hno : notOwner (some box) userId = false := by simp [notOwner, ho]
  generalize hr : deleteLinkAction env token s = r
  simp only [deleteLinkAction, tryCatch, tryCatchThe, MonadExceptOf.tryCatch, bind, throw,
    throwThe, MonadExceptOf.throw, pure, tryCatch_call_bind, hs, hu, hl, hb, hno, hc,
    Bool.false_eq_true, if_false, pure_bind_run] at hr
  repeat' (first
    | split at hr
    | simp only [tryCatch_call_bind, tryCatch_throw, tryCatch_pure, catchBlock_run,
        pure_bind_run, throw_bind_run] at hr)
  all_goals subst hr
  all_goals simp [mutations, invalidated, Call.mutating]

/-- C9, as amended: `revalidatePath` is called only after a writing call
returned.  On every run of every action, whatever the collaborators do, if no
writing call returned (the session check, the validation, a lookup, the
ownership check or the writing call itself failed) no path is invalidated, and
every `revalidatePath` call of the trace comes after the writing call.  And
when the steps before it pass and the writing call returns, that call is the
only write and the paths invalidated are exactly, in order: `["/dashboard"]`
for `createBoxAction`, `deleteBoxAction` and `updateSubmissionAction`,
`["/box/" ++ boxId]` for `createSubmissionAction`,
`["/dashboard/box/" ++ boxId]` for `generateLinkAction`,
`["/dashboard/box/" ++ link.boxId]` for `toggleLinkStatusAction` and
`deleteLinkAction`, and for `updateBoxAction`
`["/dashboard", "/box/" ++ boxId]` when `revalidatePath("/dashboard")` returns
and `["/dashboard"]` alone when it throws. -/
theorem invalidation_follows_mutation {σ : Type} (env : Env σ) (s : σ) :
    (∀ fd, InvalidatesOnlyAfterMutation (createBoxAction env fd s).trace ∧
      ∀ session s1 s2 userId name description x, env.getServerSession s = (.ok session, s1) →
        sessionUserId session = some userId →
        truthy (fd.get "name") = some name → truthy (fd.get "description") = some description →
        env.createBox userId ⟨name.toString, description.toString⟩ s1 = (.ok x, s2) →
        mutations (createBoxAction env fd s).trace =
          [.createBox userId ⟨name.toString, description.toString⟩] ∧
        invalidated (createBoxAction env fd s).trace = ["/dashboard"]) ∧
    (∀ boxId fd, InvalidatesOnlyAfterMutation (updateBoxAction env boxId fd s).trace ∧
      ∀ session s1 s2 userId name description x, env.getServerSession s = (.ok session, s1) →
        sessionUserId session = some userId →
        truthy (fd.get "name") = some name → truthy (fd.get "description") = some description →
        env.updateBox boxId ⟨name.toString, description.toString⟩ s1 = (.ok x, s2) →
        mutations (updateBoxAction env boxId fd s).trace =
          [.updateBox boxId ⟨name.toString, description.toString⟩] ∧
        (∀ s3, env.revalidatePath "/dashboard" s2 = (.ok (), s3) →
          invalidated (updateBoxAction env boxId fd s).trace =
            ["/dashboard", "/box/" ++ boxId]) ∧
        (∀ e s3, env.revalidatePath "/dashboard" s2 = (.error e, s3) →
          invalidated (updateBoxAction env boxId fd s).trace = ["/dashboard"])) ∧
    (∀ boxId, InvalidatesOnlyAfterMutation (deleteBoxAction env boxId s).trace ∧
      ∀ session s1 s2 userId x, env.getServerSession s = (.ok session, s1) →
        sessionUserId session = some userId →
        env.deleteBox boxId s1 = (.ok x, s2) →
        mutations (deleteBoxAction env boxId s).trace = [.deleteBox boxId] ∧
        invalidated (deleteBoxAction env boxId s).trace = ["/dashboard"]) ∧
    (∀ boxId fd, InvalidatesOnlyAfterMutation (createSubmissionAction env boxId fd s).trace ∧
      ∀ s1 message x, truthy (fd.get "message") = some message → boxId ≠ "" →
        env.createSubmission boxId ⟨message.toString⟩ s = (.ok x, s1) →
        mutations (createSubmissionAction env boxId fd s).trace =
          [.createSubmission boxId ⟨message.toString⟩] ∧
        invalidated (createSubmissionAction env boxId fd s).trace = ["/box/" ++ boxId]) ∧
    (∀ submissionId fd, InvalidatesOnlyAfterMutation (updateSubmissionAction env submissionId fd s).trace ∧
      ∀ session s1 s2 userId response x, env.getServerSession s = (.ok session, s1) →
        sessionUserId session = some userId →
        truthy (fd.get "response") = some response →
        env.updateSubmission submissionId ⟨response.toString⟩ s1 = (.ok x, s2) →
        mutations (updateSubmissionAction env submissionId fd s).trace =
          [.updateSubmission submissionId ⟨response.toString⟩] ∧
        invalidated (updateSubmissionAction env submissionId fd s).trace = ["/dashboard"]) ∧
    (∀ fd, InvalidatesOnlyAfterMutation (generateLinkAction env fd s).trace ∧
      ∀ session s1 s2 s3 userId boxId box x, env.getServerSession s = (.ok session, s1) →
        sessionUserId session = some userId →
        truthy (fd.get "boxId") = some boxId →
        env.getBoxById boxId s1 = (.ok (some box), s2) → box.adminId = userId →
        env.generateLink boxId s2 = (.ok x, s3) →
        mutations (generateLinkAction env fd s).trace = [.generateLink boxId] ∧
        invalidated (generateLinkAction env fd s).trace =
          ["/dashboard/box/" ++ boxId.toString]) ∧
    (∀ token, InvalidatesOnlyAfterMutation (toggleLinkStatusAction env token s).trace ∧
      ∀ session s1 s2 s3 s4 userId link box x, env.getServerSession s = (.ok session, s1) →
        sessionUserId session = some userId →
        env.getLinkByToken token s1 = (.ok (some link), s2) →
        env.getBoxById (.text link.boxId) s2 = (.ok (some box), s3) → box.adminId = userId →
        env.updateLinkStatus token (!link.isActive) s3 = (.ok x, s4) →
        mutations (toggleLinkStatusAction env token s).trace =
          [.updateLinkStatus token (!link.isActive)] ∧
        invalidated (toggleLinkStatusAction env token s).trace =
          ["/dashboard/box/" ++ link.boxId]) ∧
    (∀ token, InvalidatesOnlyAfterMutation (deleteLinkAction env token s).trace ∧
      ∀ session s1 s2 s3 s4 userId link box x, env.getServerSession s = (.ok session, s1) →
        sessionUserId session = some userId →
        env.getLinkByToken token s1 = (.ok (some link), s2) →
        env.getBoxById (.text link.boxId) s2 = (.ok (some box), s3) → box.adminId = userId →
        env.deleteLink token s3 = (.ok x, s4) →
        mutations (deleteLinkAction env token s).trace = [.deleteLink token] ∧
        invalidated (deleteLinkAction env token s).trace =
          ["/dashboard/box/" ++ link.boxId]) :=
  ⟨fun fd => ⟨createBox_invalidation env s fd, createBox_invalidates env s fd⟩,
    fun boxId fd => ⟨updateBox_invalidation env s boxId fd, updateBox_invalidates env s boxId fd⟩,
    fun boxId => ⟨deleteBox_invalidation env s boxId, deleteBox_invalidates env s boxId⟩,
    fun boxId fd => ⟨createSubmission_invalidation env s boxId fd, createSubmission_invalidates env s boxId fd⟩,
    fun submissionId fd => ⟨updateSubmission_invalidation env s submissionId fd, updateSubmission_invalidates env s submissionId fd⟩,
    fun fd => ⟨generateLink_invalidation env s fd, generateLink_invalidates env s fd⟩,
    fun token => ⟨toggleLinkStatus_invalidation env s token, toggleLinkStatus_invalidates env s token⟩,
    fun token => ⟨deleteLink_invalidation env s token, deleteLink_invalidates env s token⟩⟩

/-- Instance of `invalidation_follows_mutation`: `alice` renames her box `b1`
over the in-memory store; `updateBox` and `revalidatePath("/dashboard")`
return, and the paths invalidated are "/dashboard" and then "/box/b1". -/
theorem invalidation_follows_mutation_witness :
    (memoryEnv (sessionOf "alice")).getServerSession aliceStore =
      (.ok (sessionOf "alice"), aliceStore) ∧
    sessionUserId (sessionOf "alice") = some "alice" ∧
    truthy ((formOf [("name", "Ideas"), ("description", "Share")]).get "name") =
      some (.text "Ideas") ∧
    truthy ((formOf [("name", "Ideas"), ("description", "Share")]).get "description") =
      some (.text "Share") ∧
    (memoryEnv (sessionOf "alice")).updateBox "b1" ⟨"Ideas", "Share"⟩ aliceStore =
      (.ok ⟨"b1", "alice", "Ideas", "Share"⟩,
        ⟨[⟨"b1", "alice", "Ideas", "Share"⟩], [aliceSubmission], [aliceLink]⟩) ∧
    invalidated (updateBoxAction (memoryEnv (sessionOf "alice")) "b1"
      (formOf [("name", "Ideas"), ("description", "Share")]) aliceStore).trace =
      ["/dashboard", "/box/" ++ "b1"] :=
  ⟨rfl, by decide, by decide, by decide, rfl,
    ((((invalidation_follows_mutation (memoryEnv (sessionOf "alice")) aliceStore).2.1 "b1"
      (formOf [("name", "Ideas"), ("description", "Share")])).2 (sessionOf "alice") aliceStore
      ⟨[⟨"b1", "alice", "Ideas", "Share"⟩], [aliceSubmission], [aliceLink]⟩ "alice"
      (.text "Ideas") (.text "Share") ⟨"b1", "alice", "Ideas", "Share"⟩ rfl (by decide)
      (by decide) (by decide) rfl).2.1
      ⟨[⟨"b1", "alice", "Ideas", "Share"⟩], [aliceSubmission], [aliceLink]⟩ rfl)⟩

/-- C9 fails as stated: `alice` renames her box `b1` while `revalidatePath`
throws.  `updateBox` returns, `revalidatePath("/dashboard")` is called and
throws, and `revalidatePath("/box/b1")` is never reached: the paths
invalidated are `["/dashboard"]`, not `["/dashboard", "/box/b1"]`. -/
theorem updateBox_skips_second_path :
    Event.returned (.updateBox "b1" ⟨"Ideas", "Share"⟩) ∈
      (updateBoxAction (cacheDownEnv (sessionOf "alice")) "b1"
        (formOf [("name", "Ideas"), ("description", "Share")]) aliceStore).trace ∧
    invalidated (updateBoxAction (cacheDownEnv (sessionOf "alice")) "b1"
      (formOf [("name", "Ideas"), ("description", "Share")]) aliceStore).trace =
      ["/dashboard"] ∧
    invalidated (updateBoxAction (cacheDownEnv (sessionOf "alice")) "b1"
      (formOf [("name", "Ideas"), ("description", "Share")]) aliceStore).trace ≠
      ["/dashboard", "/box/" ++ "b1"] :=
  ⟨by decide, by decide, by decide⟩

/-- C5 fails as stated: over the in-memory store, where `getLinkByToken`
returns the stored link and `updateLinkStatus` sets its `isActive` and changes
nothing else, but `revalidatePath` throws, the first toggle of `alice` on her
link `t1` makes the link inactive and does not succeed: it resolves to
`{ success: false, error: "cache down" }`. -/
theorem toggle_fails_when_cache_is_down :
    (cacheDownEnv (sessionOf "alice")).getLinkByToken "t1" aliceStore =
      (.ok (aliceStore.findLink "t1"), aliceStore) ∧
    (cacheDownEnv (sessionOf "alice")).updateLinkStatus "t1" false aliceStore =
      (.ok ⟨"t1", "b1", false⟩, ⟨[aliceBox], [aliceSubmission], [⟨"t1", "b1", false⟩]⟩) ∧
    toggleLinkStatusAction (cacheDownEnv (sessionOf "alice")) "t1" aliceStore =
      ⟨.ok (.failure (some "cache down")),
        ⟨[aliceBox], [aliceSubmission], [⟨"t1", "b1", false⟩]⟩,
        [.returned .getServerSession, .returned (.getLinkByToken "t1"),
          .returned (.getBoxById (.text "b1")), .returned (.updateLinkStatus "t1" false),
          .threw (.revalidatePath "/dashboard/box/b1") (.error "cache down"),
          .logged "Toggle link status action error:" (.error "cache down")]⟩ :=
  ⟨rfl, rfl, rfl⟩

/-- C8 fails as stated: with `revalidatePath` throwing, `createSubmission`
returns the submission and stores it, yet `createSubmissionAction` resolves to
`{ success: false, error: "cache down" }`, not to `{ success: true, data }`. -/
theorem createSubmission_fails_when_cache_is_down :
    (cacheDownEnv none).createSubmission "b1" ⟨"hello"⟩ aliceStore =
      (.ok ⟨"submission-1", "b1", "hello", none⟩,
        ⟨[aliceBox], [aliceSubmission, ⟨"submission-1", "b1", "hello", none⟩], [aliceLink]⟩) ∧
    createSubmissionAction (cacheDownEnv none) "b1" (formOf [("message", "hello")]) aliceStore =
      ⟨.ok (.failure (some "cache down")),
        ⟨[aliceBox], [aliceSubmission, ⟨"submission-1", "b1", "hello", none⟩], [aliceLink]⟩,
        [.returned (.createSubmission "b1" ⟨"hello"⟩),
          .threw (.revalidatePath "/box/b1") (.error "cache down"),
          .logged "Create submission action error:" (.error "cache down")]⟩ :=
  ⟨rfl, rfl⟩

/-- C10 fails as stated: with `revalidatePath` throwing, `createBox` returns the
new box of `alice` and stores it, yet `createBoxAction` resolves to
`{ success: false, error: "cache down" }`, not to `{ success: true, data }`. -/
theorem createBox_fails_when_cache_is_down :
    (cacheDownEnv (sessionOf "alice")).createBox "alice" ⟨"Ideas", "Share"⟩ aliceStore =
      (.ok ⟨"box-1", "alice", "Ideas", "Share"⟩,
        ⟨[aliceBox, ⟨"box-1", "alice", "Ideas", "Share"⟩], [aliceSubmission], [aliceLink]⟩) ∧
    createBoxAction (cacheDownEnv (sessionOf "alice"))
        (formOf [("name", "Ideas"), ("description", "Share")]) aliceStore =
      ⟨.ok (.failure (some "cache down")),
        ⟨[aliceBox, ⟨"box-1", "alice", "Ideas", "Share"⟩], [aliceSubmission], [aliceLink]⟩,
        [.returned .getServerSession, .returned (.createBox "alice" ⟨"Ideas", "Share"⟩),
          .threw (.revalidatePath "/dashboard") (.error "cache down"),
          .logged "Create box action error:" (.error "cache down")]⟩ :=
  ⟨rfl, rfl⟩

theorem catchBlock_map {σ α : Type} (label : String) (e : Thrown) (s : σ) :
    (catchBlock label e : Act σ (Envelope α)) s =
      ⟨Except.map Envelope.failure e.message, s, [.logged label e]⟩ := by
  simp only [catchBlock, bind, Act.bind, consoleError, readMessage, pure, Act.pure]
  rcases e.message with _ | _ <;> simp [Except.map]

theorem createBox_settles {σ : Type} (env : Env σ) (s : σ) (fd : FormData) :
    Settles (createBoxAction env fd s) := by
  generalize hr : createBoxAction env fd s = r
  simp only [createBoxAction, tryCatch, tryCatchThe, MonadExceptOf.tryCatch, bind, throw,
    throwThe, MonadExceptOf.throw, pure, tryCatch_call_bind] at hr
  repeat' (first
    | split at hr
    | simp only [tryCatch_call_bind, tryCatch_throw, tryCatch_pure, catchBlock_map,
        pure_bind_run, throw_bind_run] at hr)
  all_goals subst hr
  all_goals first
    | (simp [Settles, Thrown.message, Except.map]; done)
    | (refine ⟨fun c m h => ?_, fun h => ?_⟩
       · simp only [List.mem_cons, List.mem_nil_iff, or_false, false_or, reduceCtorEq,
           List.mem_singleton, Event.threw.injEq] at h
         obtain ⟨_, rfl⟩ := h
         simp [Thrown.message, Except.map]
       · obtain ⟨m, rfl⟩ := h _ _ (by simp; exact ⟨rfl, rfl⟩)
         simp [Thrown.message, Except.map])

theorem updateBox_settles {σ : Type} (env : Env σ) (s : σ) (boxId : String) (fd : FormData) :
    Settles (updateBoxAction env boxId fd s) := by
  generalize hr : updateBoxAction env boxId fd s = r
  simp only [updateBoxAction, tryCatch, tryCatchThe, MonadExceptOf.tryCatch, bind, throw,
    throwThe, MonadExceptOf.throw, pure, tryCatch_call_bind] at hr
  repeat' (first
    | split at hr
    | simp only [tryCatch_call_bind, tryCatch_throw, tryCatch_pure, catchBlock_map,
        pure_bind_run, throw_bind_run] at hr)
  all_goals subst hr
  all_goals first
    | (simp [Settles, Thrown.message, Except.map]; done)
    | (refine ⟨fun c m h => ?_, fun h => ?_⟩
       · simp only [List.mem_cons, List.mem_nil_iff, or_false, false_or, reduceCtorEq,
           List.mem_singleton, Event.threw.injEq] at h
         obtain ⟨_, rfl⟩ := h
         simp [Thrown.message, Except.map]
       · obtain ⟨m, rfl⟩ := h _ _ (by simp; exact ⟨rfl, rfl⟩)
         simp [Thrown.message, Except.map])

theorem deleteBox_settles {σ : Type} (env : Env σ) (s : σ) (boxId : String) :
    Settles (deleteBoxAction env boxId s) := by
  generalize hr : deleteBoxAction env boxId s = r
  simp only [deleteBoxAction, tryCatch, tryCatchThe, MonadExceptOf.tryCatch, bind, throw,
    throwThe, MonadExceptOf.throw, pure, tryCatch_call_bind] at hr
  repeat' (first
    | split at hr
    | simp only [tryCatch_call_bind, tryCatch_throw, tryCatch_pure, catchBlock_map,
        pure_bind_run, throw_bind_run] at hr)
  all_goals subst hr
  all_goals first
    | (simp [Settles, Thrown.message, Except.map]; done)
    | (refine ⟨fun c m h => ?_, fun h => ?_⟩
       · simp only [List.mem_cons, List.mem_nil_iff, or_false, false_or, reduceCtorEq,
           List.mem_singleton, Event.threw.injEq] at h
         obtain ⟨_, rfl⟩ := h
         simp [Thrown.message, Except.map]
       · obtain ⟨m, rfl⟩ := h _ _ (by simp; exact ⟨rfl, rfl⟩)
         simp [Thrown.message, Except.map])

theorem createSubmission_settles {σ : Type} (env : Env σ) (s : σ) (boxId : String)
    (fd : FormData) :
    Settles (createSubmissionAction env boxId fd s) := by
  generalize hr : createSubmissionAction env boxId fd s = r
  simp only [createSubmissionAction, tryCatch, tryCatchThe, MonadExceptOf.tryCatch, bind, throw,
    throwThe, MonadExceptOf.throw, pure, tryCatch_call_bind] at hr
  repeat' (first
    | split at hr
    | simp only [tryCatch_call_bind, tryCatch_throw, tryCatch_pure, catchBlock_map,
        pure_bind_run, throw_bind_run] at hr)
  all_goals subst hr
  all_goals first
    | (simp [Settles, Thrown.message, Except.map]; done)
    | (refine ⟨fun c m h => ?_, fun h => ?_⟩
       · simp only [List.mem_cons, List.mem_nil_iff, or_false, false_or, reduceCtorEq,
           List.mem_singleton, Event.threw.injEq] at h
         obtain ⟨_, rfl⟩ := h
         simp [Thrown.message, Except.map]
       · obtain ⟨m, rfl⟩ := h _ _ (by simp; exact ⟨rfl, rfl⟩)
         simp [Thrown.message, Except.map])

theorem updateSubmission_settles {σ : Type} (env : Env σ) (s : σ) (submissionId : String)
    (fd : FormData) :
    Settles (updateSubmissionAction env submissionId fd s) := by
  generalize hr : updateSubmissionAction env submissionId fd s = r
  simp only [updateSubmissionAction, tryCatch, tryCatchThe, MonadExceptOf.tryCatch, bind, throw,
    throwThe, MonadExceptOf.throw, pure, tryCatch_call_bind] at hr
  repeat' (first
    | split at hr
    | simp only [tryCatch_call_bind, tryCatch_throw, tryCatch_pure, catchBlock_map,
        pure_bind_run, throw_bind_run] at hr)
  all_goals subst hr
  all_goals first
    | (simp [Settles, Thrown.message, Except.map]; done)
    | (refine ⟨fun c m h => ?_, fun h => ?_⟩
       · simp only [List.mem_cons, List.mem_nil_iff, or_false, false_or, reduceCtorEq,
           List.mem_singleton, Event.threw.injEq] at h
         obtain ⟨_, rfl⟩ := h
         simp [Thrown.message, Except.map]
       · obtain ⟨m, rfl⟩ := h _ _ (by simp; exact ⟨rfl, rfl⟩)
         simp [Thrown.message, Except.map])

theorem generateLink_settles {σ : Type} (env : Env σ) (s : σ) (fd : FormData) :
    Settles (generateLinkAction env fd s) := by
  generalize hr : generateLinkAction env fd s = r
  simp only [generateLinkAction, tryCatch, tryCatchThe, MonadExceptOf.tryCatch, bind, throw,
    throwThe, MonadExceptOf.throw, pure, tryCatch_call_bind] at hr
  repeat' (first
    | split at hr
    | simp only [tryCatch_call_bind, tryCatch_throw, tryCatch_pure, catchBlock_map,
        pure_bind_run, throw_bind_run] at hr)
  all_goals subst hr
  all_goals first
    | (simp [Settles, Thrown.message, Except.map]; done)
    | (refine ⟨fun c m h => ?_, fun h => ?_⟩
       · simp only [List.mem_cons, List.mem_nil_iff, or_false, false_or, reduceCtorEq,
           List.mem_singleton, Event.threw.injEq] at h
         obtain ⟨_, rfl⟩ := h
         simp [Thrown.message, Except.map]
       · obtain ⟨m, rfl⟩ := h _ _ (by simp; exact ⟨rfl, rfl⟩)
         simp [Thrown.message, Except.map])

theorem toggleLinkStatus_settles {σ : Type} (env : Env σ) (s : σ) (token : String) :
    Settles (toggleLinkStatusAction env token s) := by
  generalize hr : toggleLinkStatusAction env token s = r
  simp only [toggleLinkStatusAction, tryCatch, tryCatchThe, MonadExceptOf.tryCatch, bind, throw,
    throwThe, MonadExceptOf.throw, pure, tryCatch_call_bind] at hr
  repeat' (first
    | split at hr
    | simp only [tryCatch_call_bind, tryCatch_throw, tryCatch_pure, catchBlock_map,
        pure_bind_run, throw_bind_run] at hr)
  all_goals subst hr
  all_goals first
    | (simp [Settles, Thrown.message, Except.map]; done)
    | (refine ⟨fun c m h => ?_, fun h => ?_⟩
       · simp only [List.mem_cons, List.mem_nil_iff, or_false, false_or, reduceCtorEq,
           List.mem_singleton, Event.threw.injEq] at h
         obtain ⟨_, rfl⟩ := h
         simp [Thrown.message, Except.map]
       · obtain ⟨m, rfl⟩ := h _ _ (by simp; exact ⟨rfl, rfl⟩)
         simp [Thrown.message, Except.map])

theorem deleteLink_settles {σ : Type} (env : Env σ) (s : σ) (token : String) :
    Settles (deleteLinkAction env token s) := by
  generalize hr : deleteLinkAction env token s = r
  simp only [deleteLinkAction, tryCatch, tryCatchThe, MonadExceptOf.tryCatch, bind, throw,
    throwThe, MonadExceptOf.throw, pure, tryCatch_call_bind] at hr
  repeat' (first
    | split at hr
    | simp only [tryCatch_call_bind, tryCatch_throw, tryCatch_pure, catchBlock_map,
        pure_bind_run, throw_bind_run] at hr)
  all_goals subst hr
  all_goals first
    | (simp [Settles, Thrown.message, Except.map]; done)
    | (refine ⟨fun c m h => ?_, fun h => ?_⟩
       · simp only [List.mem_cons, List.mem_nil_iff, or_false, false_or, reduceCtorEq,
           List.mem_singleton, Event.threw.injEq] at h
         obtain ⟨_, rfl⟩ := h
         simp [Thrown.message, Except.map]
       · obtain ⟨m, rfl⟩ := h _ _ (by simp; exact ⟨rfl, rfl⟩)
         simp [Thrown.message, Except.map])

/-- C4, as amended: each of the eight actions, on every input and whatever its
collaborators (session provider, persistence layer, link utility,
`revalidatePath`) do, settles: when a collaborator call throws an `Error` with
message `m` the action resolves to `{ success: false, error: m }`, and when
every value thrown by a collaborator during the run is an `Error` the action
does not throw and resolves to `{ success: true, data }` or to
`{ success: false, error: m }` with `m` a string. -/
theorem actions_settle_on_errors {σ : Type} (env : Env σ) (s : σ) :
    (∀ fd, Settles (createBoxAction env fd s)) ∧
    (∀ boxId fd, Settles (updateBoxAction env boxId fd s)) ∧
    (∀ boxId, Settles (deleteBoxAction env boxId s)) ∧
    (∀ boxId fd, Settles (createSubmissionAction env boxId fd s)) ∧
    (∀ submissionId fd, Settles (updateSubmissionAction env submissionId fd s)) ∧
    (∀ fd, Settles (generateLinkAction env fd s)) ∧
    (∀ token, Settles (toggleLinkStatusAction env token s)) ∧
    (∀ token, Settles (deleteLinkAction env token s)) :=
  ⟨fun fd => createBox_settles env s fd,
    fun boxId fd => updateBox_settles env s boxId fd,
    fun boxId => deleteBox_settles env s boxId,
    fun boxId fd => createSubmission_settles env s boxId fd,
    fun submissionId fd => updateSubmission_settles env s submissionId fd,
    fun fd => generateLink_settles env s fd,
    fun token => toggleLinkStatus_settles env s token,
    fun token => deleteLink_settles env s token⟩

/-- Instance of `actions_settle_on_errors`: the persistence layer throws
`new Error("db down")` from `createSubmission`, and `createSubmissionAction`
resolves to `{ success: false, error: "db down" }`. -/
theorem actions_settle_on_errors_witness :
    Event.threw (.createSubmission "b1" ⟨"hello"⟩) (.error "db down") ∈
      (createSubmissionAction (failingEnv (.error "db down")) "b1"
        (formOf [("message", "hello")]) aliceStore).trace ∧
    (createSubmissionAction (failingEnv (.error "db down")) "b1"
      (formOf [("message", "hello")]) aliceStore).outcome =
      .ok (.failure (some "db down")) :=
  have hmem : Event.threw (.createSubmission "b1" ⟨"hello"⟩) (.error "db down") ∈
      (createSubmissionAction (failingEnv (.error "db down")) "b1"
        (formOf [("message", "hello")]) aliceStore).trace := by decide
  ⟨hmem,
    ((actions_settle_on_errors (failingEnv (.error "db down")) aliceStore).2.2.2.1 "b1"
      (formOf [("message", "hello")])).1 _ _ hmem⟩

/-- C4 fails as stated: when `createSubmission` throws `null`, the catch block
of `createSubmissionAction` itself throws (the `TypeError` of reading
`error.message` on `null`), so the action throws to its caller; and when it
throws the string "boom", the action resolves to an envelope whose `error` is
`undefined`, not a message string. -/
theorem non_error_throw_escapes :
    (createSubmissionAction (failingEnv .null) "b1" (formOf [("message", "hello")])
      aliceStore).outcome =
      .error (.error "Cannot read properties of null (reading 'message')") ∧
    (createSubmissionAction (failingEnv (.str "boom")) "b1" (formOf [("message", "hello")])
      aliceStore).outcome = .ok (.failure none) :=
  ⟨rfl, rfl⟩

/-- C2 does not hold of the code: `updateBoxAction`, `deleteBoxAction` and
`updateSubmissionAction` check only that somebody is logged in.  Over the
in-memory store, `mallory`, who is not the `adminId` of box `b1`, renames the
box, answers its submission `s1`, and deletes the box: each action calls the
writing query without any `getBoxById` and resolves to `{ success: true }`. -/
theorem non_owner_mutates_box :
    aliceBox.adminId ≠ "mallory" ∧
    updateBoxAction (memoryEnv (sessionOf "mallory")) "b1"
        (formOf [("name", "Owned"), ("description", "by mallory")]) aliceStore =
      ⟨.ok (.success ⟨"b1", "alice", "Owned", "by mallory"⟩),
        ⟨[⟨"b1", "alice", "Owned", "by mallory"⟩], [aliceSubmission], [aliceLink]⟩,
        [.returned .getServerSession, .returned (.updateBox "b1" ⟨"Owned", "by mallory"⟩),
          .returned (.revalidatePath "/dashboard"), .returned (.revalidatePath "/box/b1")]⟩ ∧
    updateSubmissionAction (memoryEnv (sessionOf "mallory")) "s1"
        (formOf [("response", "not yours")]) aliceStore =
      ⟨.ok (.success ⟨"s1", "b1", "hello", some "not yours"⟩),
        ⟨[aliceBox], [⟨"s1", "b1", "hello", some "not yours"⟩], [aliceLink]⟩,
        [.returned .getServerSession, .returned (.updateSubmission "s1" ⟨"not yours"⟩),
          .returned (.revalidatePath "/dashboard")]⟩ ∧
    deleteBoxAction (memoryEnv (sessionOf "mallory")) "b1" aliceStore =
      ⟨.ok (.success aliceBox), ⟨[], [aliceSubmission], [aliceLink]⟩,
        [.returned .getServerSession, .returned (.deleteBox "b1"),
          .returned (.revalidatePath "/dashboard")]⟩ :=
  ⟨by decide, rfl, rfl, rfl⟩

end Actions
